import Mathlib

/-!
# Verification of the particle reaction/collision engine

Shallow embedding of the collision/reaction engine of the `physics`
repository (`particle.py`, `elements.py`, `reactions.py`) and proofs about
it.  Real-valued Python floats are modelled as exact rationals (`ℚ`);
`math.sqrt` values are passed as explicit parameters characterized by a
squaring hypothesis.  Python lists of particles become `List Particle`,
index sets become `List ℕ` with membership tests, and the imperative
scan loops of the reaction passes become structural folds over the same
index ranges, checking the same conditions at the same points.
-/

/-- Mirror of `particle.Particle`: position, velocity, mass, species symbol,
color and radius.  `Particle.__init__` takes `(x, y, mass, symbol, color,
radius)` and always initializes `vx = vy = 0`; see `mkParticle`. -/
structure Particle where
  x : ℚ
  y : ℚ
  vx : ℚ
  vy : ℚ
  mass : ℚ
  symbol : String
  color : ℕ × ℕ × ℕ
  radius : ℚ
deriving DecidableEq

/-- `Particle(x, y, mass, symbol, color, radius)`: the constructor zeroes the
velocity components. -/
def mkParticle (x y mass : ℚ) (symbol : String) (color : ℕ × ℕ × ℕ)
    (radius : ℚ) : Particle :=
  { x := x, y := y, vx := 0, vy := 0, mass := mass, symbol := symbol
    color := color, radius := radius }

/-- Placeholder particle used as the default for out-of-range list access
(the Python code never indexes out of range; all accesses are guarded by
the loop bounds). -/
def pdef : Particle :=
  { x := 0, y := 0, vx := 0, vy := 0, mass := 0, symbol := ""
    color := (0, 0, 0), radius := 0 }

/-- `particles[i]` for a Python list of particles. -/
def pget (ps : List Particle) (i : ℕ) : Particle := ps.getD i pdef

/-- One entry of the species data tables of `elements.py` / `reactions.py`:
symbol, mass, color, radius. -/
structure SpeciesData where
  symbol : String
  mass : ℚ
  color : ℕ × ℕ × ℕ
  radius : ℚ
deriving DecidableEq

/-! Compound data from `elements.py`'s `COMPOUND_DATA` (the module-level
`CO2_DATA` in `reactions.py` holds the same values as the registry's
`CO₂` entry). -/

def H2_DATA : SpeciesData := ⟨"H₂", 2, (255, 50, 50), 7⟩
def O2_DATA : SpeciesData := ⟨"O₂", 32, (255, 150, 150), 8⟩
def N2_DATA : SpeciesData := ⟨"N₂", 28, (150, 150, 255), 8⟩
def H2O_DATA : SpeciesData := ⟨"H₂O", 18, (0, 0, 255), 9⟩
def N2O_DATA : SpeciesData := ⟨"N₂O", 44, (100, 200, 255), 10⟩
def NO_DATA : SpeciesData := ⟨"NO", 30, (200, 200, 100), 8⟩
def NH3_DATA : SpeciesData := ⟨"NH₃", 17, (100, 255, 100), 8⟩
def CO_DATA : SpeciesData := ⟨"CO", 28, (200, 200, 200), 7⟩
def CO2_DATA : SpeciesData := ⟨"CO₂", 44, (80, 200, 80), 8⟩
def NO2_DATA : SpeciesData := ⟨"NO₂", 46, (200, 180, 120), 8⟩
def CH4_DATA : SpeciesData := ⟨"CH₄", 16, (200, 255, 200), 7⟩
def HE2_DATA : SpeciesData := ⟨"He₂", 8, (210, 210, 255), 6⟩
def HEH_DATA : SpeciesData := ⟨"HeH", 5, (230, 230, 255), 6⟩
def LI2_DATA : SpeciesData := ⟨"Li₂", 14, (220, 220, 220), 6⟩
def LIH_DATA : SpeciesData := ⟨"LiH", 8, (240, 240, 240), 6⟩
def BE2_DATA : SpeciesData := ⟨"Be₂", 18, (180, 255, 180), 6⟩
def BEO_DATA : SpeciesData := ⟨"BeO", 25, (100, 255, 100), 7⟩
def B2_DATA : SpeciesData := ⟨"B₂", 22, (255, 220, 100), 6⟩
def F2_DATA : SpeciesData := ⟨"F₂", 38, (0, 255, 255), 7⟩
def BF_DATA : SpeciesData := ⟨"BF", 30, (255, 160, 50), 7⟩
def NEF_DATA : SpeciesData := ⟨"NeF", 39, (220, 220, 255), 7⟩

/-! Atom data from `elements.py`'s `SPECIAL_ATOMS` (the `atomic_mass` key is
the particle mass used when spawning atoms). -/

def H_ATOM : SpeciesData := ⟨"H", 1, (255, 0, 0), 6⟩
def HE_ATOM : SpeciesData := ⟨"He", 4, (200, 200, 255), 6⟩
def LI_ATOM : SpeciesData := ⟨"Li", 7, (200, 200, 200), 6⟩
def BE_ATOM : SpeciesData := ⟨"Be", 9, (0, 255, 0), 6⟩
def B_ATOM : SpeciesData := ⟨"B", 11, (255, 200, 0), 6⟩
def C_ATOM : SpeciesData := ⟨"C", 12, (80, 80, 80), 7⟩
def N_ATOM : SpeciesData := ⟨"N", 14, (100, 100, 255), 7⟩
def O_ATOM : SpeciesData := ⟨"O", 16, (255, 100, 100), 7⟩
def F_ATOM : SpeciesData := ⟨"F", 19, (0, 255, 255), 6⟩
def NE_ATOM : SpeciesData := ⟨"Ne", 20, (200, 200, 200), 6⟩
def NA_ATOM : SpeciesData := ⟨"Na", 23, (170, 170, 255), 6⟩
def MG_ATOM : SpeciesData := ⟨"Mg", 24, (170, 255, 170), 6⟩

/-- The species registry: `SPECIAL_ATOMS` (keyed here by symbol rather than
atomic number) together with `COMPOUND_DATA` from `elements.py`. -/
def registry_entry (s : String) : Option SpeciesData :=
  if s = "H" then some H_ATOM
  else if s = "He" then some HE_ATOM
  else if s = "Li" then some LI_ATOM
  else if s = "Be" then some BE_ATOM
  else if s = "B" then some B_ATOM
  else if s = "C" then some C_ATOM
  else if s = "N" then some N_ATOM
  else if s = "O" then some O_ATOM
  else if s = "F" then some F_ATOM
  else if s = "Ne" then some NE_ATOM
  else if s = "Na" then some NA_ATOM
  else if s = "Mg" then some MG_ATOM
  else if s = "H₂" then some H2_DATA
  else if s = "O₂" then some O2_DATA
  else if s = "N₂" then some N2_DATA
  else if s = "H₂O" then some H2O_DATA
  else if s = "N₂O" then some N2O_DATA
  else if s = "NO" then some NO_DATA
  else if s = "NH₃" then some NH3_DATA
  else if s = "CO" then some CO_DATA
  else if s = "CO₂" then some CO2_DATA
  else if s = "NO₂" then some NO2_DATA
  else if s = "CH₄" then some CH4_DATA
  else if s = "He₂" then some HE2_DATA
  else if s = "HeH" then some HEH_DATA
  else if s = "Li₂" then some LI2_DATA
  else if s = "LiH" then some LIH_DATA
  else if s = "Be₂" then some BE2_DATA
  else if s = "BeO" then some BEO_DATA
  else if s = "B₂" then some B2_DATA
  else if s = "F₂" then some F2_DATA
  else if s = "BF" then some BF_DATA
  else if s = "NeF" then some NEF_DATA
  else none

/-- A particle's mass agrees with its species' registry mass. -/
def mass_registry_consistent (p : Particle) : Prop :=
  (registry_entry p.symbol).map SpeciesData.mass = some p.mass

instance (p : Particle) : Decidable (mass_registry_consistent p) := by
  unfold mass_registry_consistent; infer_instance

/-- A particle's mass, radius and color all agree with its species' registry
entry (the consistency required of freshly created product particles). -/
def product_registry_consistent (q : Particle) : Prop :=
  registry_entry q.symbol =
    some { symbol := q.symbol, mass := q.mass, color := q.color, radius := q.radius }

instance (q : Particle) : Decidable (product_registry_consistent q) := by
  unfold product_registry_consistent; infer_instance

/-! ## Geometry and broadphase (`reactions.py`) -/

/-- `CELL_SIZE = 50`: grid cell size for the spatial broadphase. -/
def CELL_SIZE : ℚ := 50

/-- `are_colliding(a, b)`: squared center distance strictly less than the
squared sum of radii. -/
def are_colliding (a b : Particle) : Bool :=
  decide ((b.x - a.x) * (b.x - a.x) + (b.y - a.y) * (b.y - a.y)
    < (a.radius + b.radius) * (a.radius + b.radius))

/-- Grid cell of a particle: `(int(p.x // CELL_SIZE), int(p.y // CELL_SIZE))`
(Python float floor-division, i.e. the mathematical floor). -/
def cell_of (p : Particle) : ℤ × ℤ := (⌊p.x / CELL_SIZE⌋, ⌊p.y / CELL_SIZE⌋)

/-- The Moore-neighborhood offsets from `build_spatial_grid`. -/
def neighbor_offsets : List (ℤ × ℤ) :=
  [(-1, -1), (-1, 0), (-1, 1), (0, -1), (0, 0), (0, 1), (1, -1), (1, 0), (1, 1)]

/-- `build_spatial_grid(particles, main_width, main_height)`.  The Python
code hashes every particle index into its cell and, for every occupied cell
and every Moore-neighbor offset, emits the pairs `(i1, i2)` with `i1 < i2`,
`i1` in the cell and `i2` in the offset cell.  Unwound, an ordered pair
`(i, j)` with `i < j` is emitted exactly when `cell(j) - cell(i)` is one of
the nine offsets (taking the cell of `i` as the base cell), and each such
pair is emitted exactly once; this definition enumerates that same
candidate set.  The `main_width` / `main_height` parameters of the source
are unused by its body and are omitted. -/
def build_spatial_grid (ps : List Particle) : List (ℕ × ℕ) :=
  (List.range ps.length).flatMap fun i =>
    (List.range ps.length).filterMap fun j =>
      if i < j ∧
          ((cell_of (pget ps j)).1 - (cell_of (pget ps i)).1,
           (cell_of (pget ps j)).2 - (cell_of (pget ps i)).2) ∈ neighbor_offsets
      then some (i, j) else none

/-- `detect_overlapping_pairs(particles, candidate_pairs)`: the subset of the
candidate pairs whose particles actually overlap (the Python set it returns
is used only through membership tests, so a duplicate-free list is a
faithful model). -/
def detect_overlapping_pairs (ps : List Particle) (cand : List (ℕ × ℕ)) :
    List (ℕ × ℕ) :=
  cand.filter fun ij => are_colliding (pget ps ij.1) (pget ps ij.2)

/-! ## Reaction passes (`reactions.py`) -/

/-- `combine_two(a, b, data)`: product of a two-body reaction — combined
mass, momentum-preserving velocity, midpoint position, species data fields
from `data` (`Particle(x_cen, y_cen, m_sum, ...)` zeroes the velocity and
the two assignments then set it). -/
def combine_two (a b : Particle) (data : SpeciesData) : Particle :=
  let m_sum := a.mass + b.mass
  let vx_sum := a.vx * a.mass + b.vx * b.mass
  let vy_sum := a.vy * a.mass + b.vy * b.mass
  let x_cen := (a.x + b.x) * 0.5
  let y_cen := (a.y + b.y) * 0.5
  { mkParticle x_cen y_cen m_sum data.symbol data.color data.radius with
    vx := vx_sum / m_sum, vy := vy_sum / m_sum }

/-- `spawn_two_molecules_3(a, b, c, data)`: the two products of a three-body
reaction, each with half the combined mass and the combined-momentum
velocity, offset ±5 from the centroid. -/
def spawn_two_molecules_3 (a b c : Particle) (data : SpeciesData) :
    List Particle :=
  let m_sum := a.mass + b.mass + c.mass
  let vx_sum := a.vx * a.mass + b.vx * b.mass + c.vx * c.mass
  let vy_sum := a.vy * a.mass + b.vy * b.mass + c.vy * c.mass
  let x_cen := (a.x + b.x + c.x) / 3
  let y_cen := (a.y + b.y + c.y) / 3
  let each_mass := m_sum * 0.5
  let vx := vx_sum / m_sum
  let vy := vy_sum / m_sum
  [{ mkParticle (x_cen - 5) y_cen each_mass data.symbol data.color data.radius with
       vx := vx, vy := vy },
   { mkParticle (x_cen + 5) y_cen each_mass data.symbol data.color data.radius with
       vx := vx, vy := vy }]

/-- `spawn_two_molecules_4(a, b, c, d, data)`: the two products of a
four-body reaction (`each_mass = m_sum / 2.0`). -/
def spawn_two_molecules_4 (a b c d : Particle) (data : SpeciesData) :
    List Particle :=
  let m_sum := a.mass + b.mass + c.mass + d.mass
  let vx_sum := a.vx * a.mass + b.vx * b.mass + c.vx * c.mass + d.vx * d.mass
  let vy_sum := a.vy * a.mass + b.vy * b.mass + c.vy * c.mass + d.vy * d.mass
  let x_cen := (a.x + b.x + c.x + d.x) / 4
  let y_cen := (a.y + b.y + c.y + d.y) / 4
  let each_mass := m_sum / 2
  let vx := vx_sum / m_sum
  let vy := vy_sum / m_sum
  [{ mkParticle (x_cen - 5) y_cen each_mass data.symbol data.color data.radius with
       vx := vx, vy := vy },
   { mkParticle (x_cen + 5) y_cen each_mass data.symbol data.color data.radius with
       vx := vx, vy := vy }]

/-- The `if/elif` symbol chain of `pairwise_reactions_diatomic`, returning
the product species data of the matched rule. -/
def diatomic_branch (p1 p2 : Particle) : Option SpeciesData :=
  if p1.symbol = "H" ∧ p2.symbol = "H" then some H2_DATA
  else if p1.symbol = "N" ∧ p2.symbol = "N" then some N2_DATA
  else if p1.symbol = "O" ∧ p2.symbol = "O" then some O2_DATA
  else if p1.symbol = "He" ∧ p2.symbol = "He" then some HE2_DATA
  else if p1.symbol = "Li" ∧ p2.symbol = "Li" then some LI2_DATA
  else if p1.symbol = "Be" ∧ p2.symbol = "Be" then some BE2_DATA
  else if p1.symbol = "B" ∧ p2.symbol = "B" then some B2_DATA
  else if p1.symbol = "F" ∧ p2.symbol = "F" then some F2_DATA
  else none

/-- The `if/elif` chain of `pairwise_reactions_extra`.  The Python code
compares the two-element symbol *set* `{p1.symbol, p2.symbol}` against a
two-element literal set, which holds exactly when the two symbols are the
two literals in either order. -/
def extra_branch (p1 p2 : Particle) : Option SpeciesData :=
  if (p1.symbol = "C" ∧ p2.symbol = "O₂") ∨ (p1.symbol = "O₂" ∧ p2.symbol = "C")
    then some CO2_DATA
  else if (p1.symbol = "CO" ∧ p2.symbol = "O") ∨ (p1.symbol = "O" ∧ p2.symbol = "CO")
    then some CO2_DATA
  else if (p1.symbol = "N" ∧ p2.symbol = "O") ∨ (p1.symbol = "O" ∧ p2.symbol = "N")
    then some NO_DATA
  else if (p1.symbol = "He" ∧ p2.symbol = "H") ∨ (p1.symbol = "H" ∧ p2.symbol = "He")
    then some HEH_DATA
  else if (p1.symbol = "Li" ∧ p2.symbol = "H") ∨ (p1.symbol = "H" ∧ p2.symbol = "Li")
    then some LIH_DATA
  else if (p1.symbol = "Be" ∧ p2.symbol = "O") ∨ (p1.symbol = "O" ∧ p2.symbol = "Be")
    then some BEO_DATA
  else if (p1.symbol = "B" ∧ p2.symbol = "F") ∨ (p1.symbol = "F" ∧ p2.symbol = "B")
    then some BF_DATA
  else if (p1.symbol = "Ne" ∧ p2.symbol = "F") ∨ (p1.symbol = "F" ∧ p2.symbol = "Ne")
    then some NEF_DATA
  else none

/-- The `syms.count` rule test of `triple_collision_stoich`. -/
def triple_branch (p1 p2 p3 : Particle) : Option SpeciesData :=
  let syms := [p1.symbol, p2.symbol, p3.symbol]
  if syms.count "H₂" = 2 ∧ syms.count "O₂" = 1 then some H2O_DATA
  else if syms.count "N₂" = 2 ∧ syms.count "O₂" = 1 then some N2O_DATA
  else none

/-- The `syms.count` rule test of `quadruple_collision_ammonia`. -/
def quad_branch (p1 p2 p3 p4 : Particle) : Option SpeciesData :=
  let syms := [p1.symbol, p2.symbol, p3.symbol, p4.symbol]
  if syms.count "N₂" = 1 ∧ syms.count "H₂" = 3 then some NH3_DATA
  else none

/-- Scan state of a pairwise reaction pass: the `to_remove` index set and
the list of matches, each match recording its index pair and its product
(`to_add` is the list of products in match order). -/
def PairState := List ℕ × List ((ℕ × ℕ) × Particle)

/-- Body of the inner `j` loop of `pairwise_reactions_diatomic` (and of
`pairwise_reactions_extra`, which inlines `combine_two`'s exact formula in
each of its branches): skip a consumed `j`, skip non-colliding pairs,
otherwise run the symbol chain and on a match mark `i` and `j` consumed and
record the product.  Exactly as in the source, `i` is *not* re-checked
against the consumed set here — only at the head of the outer loop. -/
def pair_inner (branch : Particle → Particle → Option SpeciesData)
    (ps : List Particle) (pairs : List (ℕ × ℕ)) (i : ℕ)
    (st : PairState) (j : ℕ) : PairState :=
  if j ∈ st.1 then st
  else if (i, j) ∈ pairs then
    match branch (pget ps i) (pget ps j) with
    | some data =>
        (i :: j :: st.1, st.2 ++ [((i, j), combine_two (pget ps i) (pget ps j) data)])
    | none => st
  else st

/-- The double loop of a pairwise reaction pass:
`for i in range(n - 1): if i in to_remove: continue; for j in range(i + 1, n): ...`. -/
def pair_scan (branch : Particle → Particle → Option SpeciesData)
    (ps : List Particle) (pairs : List (ℕ × ℕ)) : PairState :=
  (List.range (ps.length - 1)).foldl
    (fun st i =>
      if i ∈ st.1 then st
      else (List.range' (i + 1) (ps.length - (i + 1))).foldl
        (pair_inner branch ps pairs i) st)
    ([], [])

/-- `for idx in sorted(to_remove, reverse=True): del particles[idx]` —
deleting a set of indices in descending order keeps exactly the particles
whose index is not in the set, in their original order. -/
def remove_indices (ps : List Particle) (to_remove : List ℕ) : List Particle :=
  ps.enum.filterMap fun ip => if ip.1 ∈ to_remove then none else some ip.2

/-- `pairwise_reactions_diatomic(particles, colliding_pairs)`: run the scan,
delete the consumed indices, append the products. -/
def pairwise_reactions_diatomic (ps : List Particle) (pairs : List (ℕ × ℕ)) :
    List Particle :=
  remove_indices ps (pair_scan diatomic_branch ps pairs).1
    ++ (pair_scan diatomic_branch ps pairs).2.map Prod.snd

/-- `pairwise_reactions_extra(particles, colliding_pairs)`: same double-loop
shape with the extra rule chain (each branch inlines `combine_two`'s
formula verbatim). -/
def pairwise_reactions_extra (ps : List Particle) (pairs : List (ℕ × ℕ)) :
    List Particle :=
  remove_indices ps (pair_scan extra_branch ps pairs).1
    ++ (pair_scan extra_branch ps pairs).2.map Prod.snd

/-- Scan state of the triple pass: consumed indices and matches
`((i, j, k), products)`. -/
def TripleState := List ℕ × List ((ℕ × ℕ × ℕ) × List Particle)

/-- Body of the innermost `k` loop of `triple_collision_stoich`: skip a
consumed `k`, require `(i, k)` and `(j, k)` colliding, then the rule test. -/
def triple_inner (ps : List Particle) (pairs : List (ℕ × ℕ)) (i j : ℕ)
    (st : TripleState) (k : ℕ) : TripleState :=
  if k ∈ st.1 then st
  else if (i, k) ∈ pairs ∧ (j, k) ∈ pairs then
    match triple_branch (pget ps i) (pget ps j) (pget ps k) with
    | some data =>
        (i :: j :: k :: st.1,
         st.2 ++ [((i, j, k),
           spawn_two_molecules_3 (pget ps i) (pget ps j) (pget ps k) data)])
    | none => st
  else st

/-- The triple loop of `triple_collision_stoich`:
`i in range(n - 2)`, `j in range(i + 1, n - 1)` (skipping consumed `j` and
non-colliding `(i, j)`), `k in range(j + 1, n)`. -/
def triple_scan (ps : List Particle) (pairs : List (ℕ × ℕ)) : TripleState :=
  (List.range (ps.length - 2)).foldl
    (fun st i =>
      if i ∈ st.1 then st
      else (List.range' (i + 1) (ps.length - 1 - (i + 1))).foldl
        (fun st2 j =>
          if j ∈ st2.1 then st2
          else if (i, j) ∈ pairs then
            (List.range' (j + 1) (ps.length - (j + 1))).foldl
              (triple_inner ps pairs i j) st2
          else st2)
        st)
    ([], [])

/-- `triple_collision_stoich(particles, colliding_pairs)`. -/
def triple_collision_stoich (ps : List Particle) (pairs : List (ℕ × ℕ)) :
    List Particle :=
  remove_indices ps (triple_scan ps pairs).1
    ++ (triple_scan ps pairs).2.flatMap Prod.snd

/-- Scan state of the quadruple pass. -/
def QuadState := List ℕ × List ((ℕ × ℕ × ℕ × ℕ) × List Particle)

/-- Body of the innermost `l` loop of `quadruple_collision_ammonia`. -/
def quad_inner (ps : List Particle) (pairs : List (ℕ × ℕ)) (i j k : ℕ)
    (st : QuadState) (l : ℕ) : QuadState :=
  if l ∈ st.1 then st
  else if (i, l) ∈ pairs ∧ (j, l) ∈ pairs ∧ (k, l) ∈ pairs then
    match quad_branch (pget ps i) (pget ps j) (pget ps k) (pget ps l) with
    | some data =>
        (i :: j :: k :: l :: st.1,
         st.2 ++ [((i, j, k, l),
           spawn_two_molecules_4 (pget ps i) (pget ps j) (pget ps k) (pget ps l) data)])
    | none => st
  else st

/-- The quadruple loop of `quadruple_collision_ammonia`:
`i in range(n - 3)`, `j in range(i + 1, n - 2)` (skip consumed `j`,
require `(i, j)` colliding), `k in range(j + 1, n - 1)` (skip consumed `k`,
require `(i, k)` and `(j, k)` colliding), `l in range(k + 1, n)`. -/
def quad_scan (ps : List Particle) (pairs : List (ℕ × ℕ)) : QuadState :=
  (List.range (ps.length - 3)).foldl
    (fun st i =>
      if i ∈ st.1 then st
      else (List.range' (i + 1) (ps.length - 2 - (i + 1))).foldl
        (fun st2 j =>
          if j ∈ st2.1 then st2
          else if (i, j) ∈ pairs then
            (List.range' (j + 1) (ps.length - 1 - (j + 1))).foldl
              (fun st3 k =>
                if k ∈ st3.1 then st3
                else if (i, k) ∈ pairs ∧ (j, k) ∈ pairs then
                  (List.range' (k + 1) (ps.length - (k + 1))).foldl
                    (quad_inner ps pairs i j k) st3
                else st3)
              st2
          else st2)
        st)
    ([], [])

/-- `quadruple_collision_ammonia(particles, colliding_pairs)`. -/
def quadruple_collision_ammonia (ps : List Particle) (pairs : List (ℕ × ℕ)) :
    List Particle :=
  remove_indices ps (quad_scan ps pairs).1
    ++ (quad_scan ps pairs).2.flatMap Prod.snd

/-! ## Particle physics (`particle.py`) -/

/-- `GRAVITY = 9.80665`. -/
def GRAVITY : ℚ := 9.80665

/-- `MAX_SPEED = 1e4`. -/
def MAX_SPEED : ℚ := 10000

/-- `MAX_SPEED_SQ = MAX_SPEED ** 2`. -/
def MAX_SPEED_SQ : ℚ := MAX_SPEED ^ 2

/-- `Particle.apply_forces(dt)`: add gravity to `vy`, then clamp the speed.
`sp` stands for the value of `math.sqrt(sp_sq)` computed in the clamping
branch; theorems characterize it by `sp * sp = sp_sq` and `0 ≤ sp`. -/
def apply_forces (p : Particle) (dt sp : ℚ) : Particle :=
  let vy := p.vy + GRAVITY * dt
  let sp_sq := p.vx * p.vx + vy * vy
  if sp_sq > MAX_SPEED_SQ then
    let scale := MAX_SPEED / sp
    { p with vx := p.vx * scale, vy := vy * scale }
  else
    { p with vy := vy }

/-- The floor-collision block of `Particle.update_position`: clamp to the
floor and, when moving downward, reflect `vy` damped by `0.5`, zero-snapping
it when its magnitude drops below `1`. -/
def floor_step (p : Particle) (main_height : ℚ) : Particle :=
  if p.y + p.radius ≥ main_height then
    let p1 : Particle := { p with y := p.y - ((p.y + p.radius) - main_height) }
    if p1.vy > 0 then
      let p2 : Particle := { p1 with vy := -0.5 * p1.vy }
      if |p2.vy| < 1 then { p2 with vy := 0 } else p2
    else p1
  else p

/-- The top-collision block of `Particle.update_position`: clamp to the top
and, when moving upward, reflect `vy` damped by `0.5` (no zero-snap). -/
def top_step (p : Particle) : Particle :=
  if p.y - p.radius < 0 then
    let p1 : Particle := { p with y := p.y + (p.radius - p.y) }
    if p1.vy < 0 then { p1 with vy := -0.5 * p1.vy } else p1
  else p

/-- The left-collision block of `Particle.update_position`: clamp to the
left wall and, when moving left, reflect `vx` damped by `0.5` (no
zero-snap). -/
def left_step (p : Particle) : Particle :=
  if p.x - p.radius < 0 then
    let p1 : Particle := { p with x := p.x + (p.radius - p.x) }
    if p1.vx < 0 then { p1 with vx := -0.5 * p1.vx } else p1
  else p

/-- The right-collision block of `Particle.update_position`: clamp to the
right wall and, when moving right, reflect `vx` damped by `0.5` (no
zero-snap). -/
def right_step (p : Particle) (main_width : ℚ) : Particle :=
  if p.x + p.radius > main_width then
    let p1 : Particle := { p with x := p.x - ((p.x + p.radius) - main_width) }
    if p1.vx > 0 then { p1 with vx := -0.5 * p1.vx } else p1
  else p

/-- `Particle.update_position(dt, main_width, main_height)`: advance the
position by `velocity * dt`, then the four boundary blocks in source order
(floor, top, left, right). -/
def update_position (p : Particle) (dt main_width main_height : ℚ) : Particle :=
  right_step
    (left_step
      (top_step
        (floor_step { p with x := p.x + p.vx * dt, y := p.y + p.vy * dt } main_height)))
    main_width

/-! ## Elastic bounce (`reactions.py`, `do_elastic_bounce`) -/

/-- The per-pair body of `do_elastic_bounce`: positional separation by half
the overlap each, then the mass-weighted velocity exchange only when
`dot < 0`.  `dist` stands for `math.sqrt(dx*dx + dy*dy) or 1e-12`;
theorems characterize it by `dist * dist = dx*dx + dy*dy` and `0 < dist`
(the `or 1e-12` guard substitutes a tiny positive epsilon when the centers
coincide, keeping `dist` positive). -/
def bounce_pair (p1 p2 : Particle) (dist : ℚ) : Particle × Particle :=
  if are_colliding p1 p2 then
    let dx := p2.x - p1.x
    let dy := p2.y - p1.y
    let overlap := (p1.radius + p2.radius) - dist
    if overlap > 0 then
      let nx := dx / dist
      let ny := dy / dist
      let q1 := { p1 with x := p1.x - nx * (overlap * 0.5)
                          y := p1.y - ny * (overlap * 0.5) }
      let q2 := { p2 with x := p2.x + nx * (overlap * 0.5)
                          y := p2.y + ny * (overlap * 0.5) }
      let vx_rel := q1.vx - q2.vx
      let vy_rel := q1.vy - q2.vy
      let dot := vx_rel * nx + vy_rel * ny
      if dot < 0 then
        let m1 := q1.mass
        let m2 := q2.mass
        let c1 := (2 * m2 / (m1 + m2)) * dot
        let c2 := (2 * m1 / (m1 + m2)) * dot
        ({ q1 with vx := q1.vx - c1 * nx, vy := q1.vy - c1 * ny },
         { q2 with vx := q2.vx + c2 * nx, vy := q2.vy + c2 * ny })
      else (q1, q2)
    else (p1, p2)
  else (p1, p2)

/-! ## Helper lemmas -/

/-- A `foldl` preserves any invariant its step function preserves. -/
theorem foldl_preserve {σ α : Type} (P : σ → Prop) (f : σ → α → σ) :
    ∀ (l : List α) (st : σ), (∀ s a, a ∈ l → P s → P (f s a)) → P st →
      P (l.foldl f st) := by
  intro l
  induction l with
  | nil => intro st _ h; exact h
  | cons a t ih =>
    intro st hstep h
    exact ih (f st a) (fun s b hb => hstep s b (List.mem_cons_of_mem a hb))
      (hstep st a (List.mem_cons_self a t) h)

theorem pget_mem (ps : List Particle) (i : ℕ) (h : i < ps.length) :
    pget ps i ∈ ps := by
  unfold pget
  rw [List.getD_eq_getElem ps pdef h]
  exact List.getElem_mem h

/-- Floors of rationals within distance 1 differ by at most 1. -/
theorem floor_close (a b : ℚ) (h : |a - b| < 1) :
    ⌊a⌋ ≤ ⌊b⌋ + 1 ∧ ⌊b⌋ ≤ ⌊a⌋ + 1 := by
  rw [abs_lt] at h
  constructor
  · have hab : a ≤ b + 1 := by linarith
    have := Int.floor_le_floor hab
    simpa [Int.floor_add_one] using this
  · have hba : b ≤ a + 1 := by linarith
    have := Int.floor_le_floor hba
    simpa [Int.floor_add_one] using this

/-- Membership introduction for the broadphase candidate list. -/
theorem mem_build_spatial_grid (ps : List Particle) (i j : ℕ) (hij : i < j)
    (hj : j < ps.length)
    (hoff : ((cell_of (pget ps j)).1 - (cell_of (pget ps i)).1,
             (cell_of (pget ps j)).2 - (cell_of (pget ps i)).2) ∈ neighbor_offsets) :
    (i, j) ∈ build_spatial_grid ps := by
  unfold build_spatial_grid
  rw [List.mem_flatMap]
  exact ⟨i, List.mem_range.mpr (hij.trans hj),
    List.mem_filterMap.mpr ⟨j, List.mem_range.mpr hj, by rw [if_pos ⟨hij, hoff⟩]⟩⟩

/-- Two overlapping particles whose (nonnegative) radius sum is at most
`CELL_SIZE` occupy Moore-adjacent grid cells. -/
theorem cells_adjacent_of_colliding (a b : Particle)
    (hcol : are_colliding a b = true)
    (hra : 0 ≤ a.radius) (hrb : 0 ≤ b.radius)
    (hsum : a.radius + b.radius ≤ CELL_SIZE) :
    ((cell_of b).1 - (cell_of a).1, (cell_of b).2 - (cell_of a).2)
      ∈ neighbor_offsets := by
  have hcol' : (b.x - a.x) * (b.x - a.x) + (b.y - a.y) * (b.y - a.y)
      < (a.radius + b.radius) * (a.radius + b.radius) := by
    simpa [are_colliding] using hcol
  have hs50 : a.radius + b.radius ≤ 50 := by simpa [CELL_SIZE] using hsum
  have hrs : (a.radius + b.radius) * (a.radius + b.radius) ≤ 2500 := by nlinarith
  have hdx : |b.x - a.x| < 50 := by
    have hsq : (b.x - a.x) ^ 2 < 50 ^ 2 := by nlinarith [sq_nonneg (b.y - a.y)]
    exact abs_lt_of_sq_lt_sq hsq (by norm_num)
  have hdy : |b.y - a.y| < 50 := by
    have hsq : (b.y - a.y) ^ 2 < 50 ^ 2 := by nlinarith [sq_nonneg (b.x - a.x)]
    exact abs_lt_of_sq_lt_sq hsq (by norm_num)
  have hx : |b.x / CELL_SIZE - a.x / CELL_SIZE| < 1 := by
    rw [div_sub_div_same, abs_div]
    simp only [CELL_SIZE]
    rw [abs_of_pos (by norm_num : (0:ℚ) < 50)]
    rw [div_lt_one (by norm_num : (0:ℚ) < 50)]
    exact hdx
  have hy : |b.y / CELL_SIZE - a.y / CELL_SIZE| < 1 := by
    rw [div_sub_div_same, abs_div]
    simp only [CELL_SIZE]
    rw [abs_of_pos (by norm_num : (0:ℚ) < 50)]
    rw [div_lt_one (by norm_num : (0:ℚ) < 50)]
    exact hdy
  have h1 := floor_close (b.x / CELL_SIZE) (a.x / CELL_SIZE) hx
  have h2 := floor_close (b.y / CELL_SIZE) (a.y / CELL_SIZE) hy
  set u := (cell_of b).1 - (cell_of a).1 with hu
  set v := (cell_of b).2 - (cell_of a).2 with hv
  have hu3 : u = -1 ∨ u = 0 ∨ u = 1 := by
    simp only [hu, cell_of] at *; omega
  have hv3 : v = -1 ∨ v = 0 ∨ v = 1 := by
    simp only [hv, cell_of] at *; omega
  rcases hu3 with h | h | h <;> rcases hv3 with g | g | g <;> rw [h, g] <;> decide

/-- Broadphase completeness: an overlapping pair whose (nonnegative) radius
sum is at most `CELL_SIZE` lies in Moore-adjacent cells, hence in the
candidate list. -/
theorem build_spatial_grid_complete (ps : List Particle) (i j : ℕ)
    (hij : i < j) (hj : j < ps.length)
    (hcol : are_colliding (pget ps i) (pget ps j) = true)
    (hri : 0 ≤ (pget ps i).radius) (hrj : 0 ≤ (pget ps j).radius)
    (hsum : (pget ps i).radius + (pget ps j).radius ≤ CELL_SIZE) :
    (i, j) ∈ build_spatial_grid ps :=
  mem_build_spatial_grid ps i j hij hj
    (cells_adjacent_of_colliding (pget ps i) (pget ps j) hcol hri hrj hsum)

/-- What every recorded match of a pairwise scan satisfies: indices in
order and in range, the pair colliding, the rule chain matched, and the
product built by `combine_two` from the matched particles. -/
def pair_match_spec (branch : Particle → Particle → Option SpeciesData)
    (ps : List Particle) (pairs : List (ℕ × ℕ))
    (m : (ℕ × ℕ) × Particle) : Prop :=
  ∃ i j, m.1 = (i, j) ∧ i < j ∧ j < ps.length ∧ (i, j) ∈ pairs ∧
    ∃ d, branch (pget ps i) (pget ps j) = some d ∧
      m.2 = combine_two (pget ps i) (pget ps j) d

theorem pair_scan_spec (branch : Particle → Particle → Option SpeciesData)
    (ps : List Particle) (pairs : List (ℕ × ℕ)) :
    ∀ m ∈ (pair_scan branch ps pairs).2, pair_match_spec branch ps pairs m := by
  unfold pair_scan
  apply foldl_preserve (fun st : PairState => ∀ m ∈ st.2, pair_match_spec branch ps pairs m)
  · intro st i hi hP
    dsimp only
    split
    · exact hP
    apply foldl_preserve (fun st : PairState => ∀ m ∈ st.2, pair_match_spec branch ps pairs m)
    · intro st2 j hjmem hP2
      have hj : i < j ∧ j < ps.length := by
        rw [List.mem_range'] at hjmem
        rw [List.mem_range] at hi
        omega
      unfold pair_inner
      split
      · exact hP2
      split
      · rename_i hpair
        rcases hbr : branch (pget ps i) (pget ps j) with _ | d
        · simpa [hbr] using hP2
        · simp only [hbr]
          intro m hm
          rcases List.mem_append.mp hm with h | h
          · exact hP2 m h
          · rcases List.mem_singleton.mp h with rfl
            exact ⟨i, j, rfl, hj.1, hj.2, hpair, d, hbr, rfl⟩
      · exact hP2
    · exact hP
  · intro m hm; exact absurd hm (List.not_mem_nil m)

/-- What every recorded match of the triple scan satisfies: ordered
in-range indices, *all three* pairs colliding, the stoichiometric rule
matched, products spawned from the matched particles. -/
def triple_match_spec (ps : List Particle) (pairs : List (ℕ × ℕ))
    (m : (ℕ × ℕ × ℕ) × List Particle) : Prop :=
  ∃ i j k, m.1 = (i, j, k) ∧ i < j ∧ j < k ∧ k < ps.length ∧
    (i, j) ∈ pairs ∧ (i, k) ∈ pairs ∧ (j, k) ∈ pairs ∧
    ∃ d, triple_branch (pget ps i) (pget ps j) (pget ps k) = some d ∧
      m.2 = spawn_two_molecules_3 (pget ps i) (pget ps j) (pget ps k) d

theorem triple_scan_spec (ps : List Particle) (pairs : List (ℕ × ℕ)) :
    ∀ m ∈ (triple_scan ps pairs).2, triple_match_spec ps pairs m := by
  unfold triple_scan
  apply foldl_preserve (fun st : TripleState => ∀ m ∈ st.2, triple_match_spec ps pairs m)
  · intro st i hi hP
    dsimp only
    split
    · exact hP
    apply foldl_preserve (fun st : TripleState => ∀ m ∈ st.2, triple_match_spec ps pairs m)
    · intro st2 j hjmem hP2
      have hj : i < j ∧ j < ps.length - 1 := by
        rw [List.mem_range'] at hjmem
        rw [List.mem_range] at hi
        omega
      split
      · exact hP2
      split
      · rename_i hpairij
        apply foldl_preserve (fun st : TripleState => ∀ m ∈ st.2, triple_match_spec ps pairs m)
        · intro st3 k hkmem hP3
          have hk : j < k ∧ k < ps.length := by
            rw [List.mem_range'] at hkmem
            rw [List.mem_range] at hi
            omega
          unfold triple_inner
          split
          · exact hP3
          split
          · rename_i hpairs
            rcases hbr : triple_branch (pget ps i) (pget ps j) (pget ps k) with _ | d
            · simpa [hbr] using hP3
            · simp only [hbr]
              intro m hm
              rcases List.mem_append.mp hm with h | h
              · exact hP3 m h
              · rcases List.mem_singleton.mp h with rfl
                exact ⟨i, j, k, rfl, hj.1, hk.1, hk.2, hpairij, hpairs.1, hpairs.2,
                  d, hbr, rfl⟩
          · exact hP3
        · exact hP2
      · exact hP2
    · exact hP
  · intro m hm; exact absurd hm (List.not_mem_nil m)

/-- What every recorded match of the quadruple scan satisfies: ordered
in-range indices, *all six* pairs colliding, the rule matched, products
spawned from the matched particles. -/
def quad_match_spec (ps : List Particle) (pairs : List (ℕ × ℕ))
    (m : (ℕ × ℕ × ℕ × ℕ) × List Particle) : Prop :=
  ∃ i j k l, m.1 = (i, j, k, l) ∧ i < j ∧ j < k ∧ k < l ∧ l < ps.length ∧
    (i, j) ∈ pairs ∧ (i, k) ∈ pairs ∧ (j, k) ∈ pairs ∧
    (i, l) ∈ pairs ∧ (j, l) ∈ pairs ∧ (k, l) ∈ pairs ∧
    ∃ d, quad_branch (pget ps i) (pget ps j) (pget ps k) (pget ps l) = some d ∧
      m.2 = spawn_two_molecules_4 (pget ps i) (pget ps j) (pget ps k) (pget ps l) d

theorem quad_scan_spec (ps : List Particle) (pairs : List (ℕ × ℕ)) :
    ∀ m ∈ (quad_scan ps pairs).2, quad_match_spec ps pairs m := by
  unfold quad_scan
  apply foldl_preserve (fun st : QuadState => ∀ m ∈ st.2, quad_match_spec ps pairs m)
  · intro st i hi hP
    dsimp only
    split
    · exact hP
    apply foldl_preserve (fun st : QuadState => ∀ m ∈ st.2, quad_match_spec ps pairs m)
    · intro st2 j hjmem hP2
      have hj : i < j ∧ j < ps.length - 2 := by
        rw [List.mem_range'] at hjmem
        rw [List.mem_range] at hi
        omega
      split
      · exact hP2
      split
      · rename_i hpairij
        apply foldl_preserve (fun st : QuadState => ∀ m ∈ st.2, quad_match_spec ps pairs m)
        · intro st3 k hkmem hP3
          have hk : j < k ∧ k < ps.length - 1 := by
            rw [List.mem_range'] at hkmem
            rw [List.mem_range] at hi
            omega
          split
          · exact hP3
          split
          · rename_i hpairsk
            apply foldl_preserve (fun st : QuadState => ∀ m ∈ st.2, quad_match_spec ps pairs m)
            · intro st4 l hlmem hP4
              have hl : k < l ∧ l < ps.length := by
                rw [List.mem_range'] at hlmem
                rw [List.mem_range] at hi
                omega
              unfold quad_inner
              split
              · exact hP4
              split
              · rename_i hpairsl
                rcases hbr : quad_branch (pget ps i) (pget ps j) (pget ps k) (pget ps l)
                  with _ | d
                · simpa [hbr] using hP4
                · simp only [hbr]
                  intro m hm
                  rcases List.mem_append.mp hm with h | h
                  · exact hP4 m h
                  · rcases List.mem_singleton.mp h with rfl
                    exact ⟨i, j, k, l, rfl, hj.1, hk.1, hl.1, hl.2,
                      hpairij, hpairsk.1, hpairsk.2,
                      hpairsl.1, hpairsl.2.1, hpairsl.2.2, d, hbr, rfl⟩
              · exact hP4
            · exact hP3
          · exact hP3
        · exact hP2
      · exact hP2
    · exact hP
  · intro m hm; exact absurd hm (List.not_mem_nil m)

/-! ## Claim theorems -/

/-- C1: every reaction of the four passes conserves mass and momentum
exactly: the two-body product of `combine_two` (used by the diatomic pass
and, formula inlined verbatim, by the extra pairwise pass) has mass equal
to the sum of the reactant masses and velocity equal to the combined
momentum divided by the combined mass, so its momentum equals the
reactants' total momentum; the two products of `spawn_two_molecules_3`
(triple pass) and of `spawn_two_molecules_4` (quadruple pass) have masses
summing to the combined reactant mass, each product's velocity is the
combined momentum over the combined mass, and the products' total momentum
equals the reactants' total momentum. -/
theorem claim_C1_reaction_conservation :
    (∀ (a b : Particle) (data : SpeciesData), 0 < a.mass → 0 < b.mass →
      (combine_two a b data).mass = a.mass + b.mass ∧
      (combine_two a b data).vx = (a.vx * a.mass + b.vx * b.mass) / (a.mass + b.mass) ∧
      (combine_two a b data).vy = (a.vy * a.mass + b.vy * b.mass) / (a.mass + b.mass) ∧
      (combine_two a b data).mass * (combine_two a b data).vx
        = a.mass * a.vx + b.mass * b.vx ∧
      (combine_two a b data).mass * (combine_two a b data).vy
        = a.mass * a.vy + b.mass * b.vy) ∧
    (∀ (a b c : Particle) (data : SpeciesData), 0 < a.mass → 0 < b.mass → 0 < c.mass →
      ((spawn_two_molecules_3 a b c data).map Particle.mass).sum
        = a.mass + b.mass + c.mass ∧
      (∀ q ∈ spawn_two_molecules_3 a b c data,
        q.vx = (a.vx * a.mass + b.vx * b.mass + c.vx * c.mass) / (a.mass + b.mass + c.mass) ∧
        q.vy = (a.vy * a.mass + b.vy * b.mass + c.vy * c.mass) / (a.mass + b.mass + c.mass)) ∧
      ((spawn_two_molecules_3 a b c data).map (fun q => q.mass * q.vx)).sum
        = a.mass * a.vx + b.mass * b.vx + c.mass * c.vx ∧
      ((spawn_two_molecules_3 a b c data).map (fun q => q.mass * q.vy)).sum
        = a.mass * a.vy + b.mass * b.vy + c.mass * c.vy) ∧
    (∀ (a b c d : Particle) (data : SpeciesData),
      0 < a.mass → 0 < b.mass → 0 < c.mass → 0 < d.mass →
      ((spawn_two_molecules_4 a b c d data).map Particle.mass).sum
        = a.mass + b.mass + c.mass + d.mass ∧
      (∀ q ∈ spawn_two_molecules_4 a b c d data,
        q.vx = (a.vx * a.mass + b.vx * b.mass + c.vx * c.mass + d.vx * d.mass)
          / (a.mass + b.mass + c.mass + d.mass) ∧
        q.vy = (a.vy * a.mass + b.vy * b.mass + c.vy * c.mass + d.vy * d.mass)
          / (a.mass + b.mass + c.mass + d.mass)) ∧
      ((spawn_two_molecules_4 a b c d data).map (fun q => q.mass * q.vx)).sum
        = a.mass * a.vx + b.mass * b.vx + c.mass * c.vx + d.mass * d.vx ∧
      ((spawn_two_molecules_4 a b c d data).map (fun q => q.mass * q.vy)).sum
        = a.mass * a.vy + b.mass * b.vy + c.mass * c.vy + d.mass * d.vy) := by
  refine ⟨?_, ?_, ?_⟩
  · intro a b data ha hb
    have hab : a.mass + b.mass ≠ 0 := (add_pos ha hb).ne'
    simp only [combine_two, mkParticle]
    refine ⟨?_, ?_, ?_, ?_, ?_⟩ <;> first | trivial | (field_simp; ring)
  · intro a b c data ha hb hc
    have habc : a.mass + b.mass + c.mass ≠ 0 := by positivity
    simp only [spawn_two_molecules_3, mkParticle, List.map_cons, List.map_nil,
      List.sum_cons, List.sum_nil, List.mem_cons, List.not_mem_nil, or_false,
      List.mem_singleton]
    refine ⟨by ring, ?_, ?_, ?_⟩
    · rintro q (rfl | rfl) <;> exact ⟨rfl, rfl⟩
    · field_simp; ring
    · field_simp; ring
  · intro a b c d data ha hb hc hd
    have habcd : a.mass + b.mass + c.mass + d.mass ≠ 0 := by positivity
    simp only [spawn_two_molecules_4, mkParticle, List.map_cons, List.map_nil,
      List.sum_cons, List.sum_nil, List.mem_cons, List.not_mem_nil, or_false,
      List.mem_singleton]
    refine ⟨by ring, ?_, ?_, ?_⟩
    · rintro q (rfl | rfl) <;> exact ⟨rfl, rfl⟩
    · field_simp; ring
    · field_simp; ring

/-- Concrete reactant particles for the C1 witness. -/
def cwA : Particle :=
  { x := 0, y := 0, vx := 3, vy := 4, mass := 1, symbol := "H", color := (255, 0, 0), radius := 6 }

/-- Second concrete reactant for the C1 witness. -/
def cwB : Particle :=
  { x := 5, y := 0, vx := -1, vy := 2, mass := 1, symbol := "H", color := (255, 0, 0), radius := 6 }

theorem claim_C1_reaction_conservation_witness :
    (combine_two cwA cwB H2_DATA).mass * (combine_two cwA cwB H2_DATA).vx
      = cwA.mass * cwA.vx + cwB.mass * cwB.vx :=
  (claim_C1_reaction_conservation.1 cwA cwB H2_DATA (by decide) (by decide)).2.2.2.1

/-- C3: broadphase completeness — any overlapping pair `i < j` whose radius
sum is at most `CELL_SIZE` (with nonnegative radii, per the data model)
appears in the candidate list of `build_spatial_grid`. -/
theorem claim_C3_broadphase_completeness (ps : List Particle) (i j : ℕ)
    (hij : i < j) (hj : j < ps.length)
    (hcol : are_colliding (pget ps i) (pget ps j) = true)
    (hri : 0 ≤ (pget ps i).radius) (hrj : 0 ≤ (pget ps j).radius)
    (hsum : (pget ps i).radius + (pget ps j).radius ≤ CELL_SIZE) :
    (i, j) ∈ build_spatial_grid ps :=
  build_spatial_grid_complete ps i j hij hj hcol hri hrj hsum

/-- Concrete two-particle list for the C3 witness. -/
def c3ps : List Particle :=
  [{ x := 48, y := 48, vx := 0, vy := 0, mass := 1, symbol := "H", color := (255, 0, 0), radius := 6 },
   { x := 53, y := 51, vx := 0, vy := 0, mass := 1, symbol := "H", color := (255, 0, 0), radius := 6 }]

theorem claim_C3_broadphase_completeness_witness :
    (0, 1) ∈ build_spatial_grid c3ps :=
  claim_C3_broadphase_completeness c3ps 0 1 (by decide) (by decide)
    (by simp [c3ps, are_colliding, pget]; norm_num)
    (by norm_num [c3ps, pget]) (by norm_num [c3ps, pget])
    (by norm_num [c3ps, pget, CELL_SIZE])

/-- C6: all-pairs matching — every group the triple pass consumes has all
three of its unordered index pairs in the colliding-pairs set (so a
three-particle group with only two overlapping pairs never reacts), and
every group the quadruple pass consumes has all six pairs colliding. -/
theorem claim_C6_all_pairs_matching (ps : List Particle) (pairs : List (ℕ × ℕ)) :
    (∀ m ∈ (triple_scan ps pairs).2,
      (m.1.1, m.1.2.1) ∈ pairs ∧ (m.1.1, m.1.2.2) ∈ pairs ∧
      (m.1.2.1, m.1.2.2) ∈ pairs) ∧
    (∀ m ∈ (quad_scan ps pairs).2,
      (m.1.1, m.1.2.1) ∈ pairs ∧ (m.1.1, m.1.2.2.1) ∈ pairs ∧
      (m.1.2.1, m.1.2.2.1) ∈ pairs ∧ (m.1.1, m.1.2.2.2) ∈ pairs ∧
      (m.1.2.1, m.1.2.2.2) ∈ pairs ∧ (m.1.2.2.1, m.1.2.2.2) ∈ pairs) := by
  constructor
  · intro m hm
    obtain ⟨i, j, k, h1, _, _, _, hij, hik, hjk, _⟩ := triple_scan_spec ps pairs m hm
    rw [h1]
    exact ⟨hij, hik, hjk⟩
  · intro m hm
    obtain ⟨i, j, k, l, h1, _, _, _, _, hij, hik, hjk, hil, hjl, hkl, _⟩ :=
      quad_scan_spec ps pairs m hm
    rw [h1]
    exact ⟨hij, hik, hjk, hil, hjl, hkl⟩

/-- Concrete mutually-overlapping 2·H₂ + O₂ list for the C6 witness. -/
def c6ps : List Particle :=
  [{ x := 0, y := 0, vx := 0, vy := 0, mass := 2, symbol := "H₂", color := (255, 50, 50), radius := 7 },
   { x := 5, y := 0, vx := 0, vy := 0, mass := 2, symbol := "H₂", color := (255, 50, 50), radius := 7 },
   { x := 2, y := 8, vx := 0, vy := 0, mass := 32, symbol := "O₂", color := (255, 150, 150), radius := 8 }]

/-- The colliding pairs of `c6ps` (all three of its particles mutually
overlap, so all three index pairs collide). -/
def c6pairs : List (ℕ × ℕ) := [(0, 1), (0, 2), (1, 2)]

theorem claim_C6_all_pairs_matching_witness :
    (0, 1) ∈ c6pairs ∧ (0, 2) ∈ c6pairs ∧ (1, 2) ∈ c6pairs :=
  (claim_C6_all_pairs_matching c6ps c6pairs).1
    ((0, 1, 2), spawn_two_molecules_3 (pget c6ps 0) (pget c6ps 1) (pget c6ps 2) H2O_DATA)
    (by simp [c6ps, c6pairs, triple_scan, triple_inner, triple_branch, pget,
      List.range_succ, List.range'])

/-- C4: for every pair processed by the elastic-bounce velocity update
(overlapping, and with the relative-velocity component along the collision
normal strictly negative, which is the code's `dot < 0` guard), the
mass-weighted exchange formula leaves both masses unchanged, conserves
total momentum exactly, conserves total kinetic energy exactly, and leaves
both particles' tangential velocity components untouched; consequently two
equal-mass particles with opposite velocities directed along the collision
normal exactly swap velocities.  `dist` stands for the computed
`math.sqrt(dx*dx + dy*dy)`, characterized by the squaring hypothesis. -/
theorem claim_C4_elastic_bounce_conservation (p1 p2 : Particle) (dist : ℚ)
    (hm1 : 0 < p1.mass) (hm2 : 0 < p2.mass) (hdist : 0 < dist)
    (hd2 : dist * dist = (p2.x - p1.x) * (p2.x - p1.x) + (p2.y - p1.y) * (p2.y - p1.y))
    (hov : (p1.radius + p2.radius) - dist > 0)
    (hdot : (p1.vx - p2.vx) * ((p2.x - p1.x) / dist)
          + (p1.vy - p2.vy) * ((p2.y - p1.y) / dist) < 0) :
    ((bounce_pair p1 p2 dist).1.mass = p1.mass ∧
     (bounce_pair p1 p2 dist).2.mass = p2.mass) ∧
    (p1.mass * (bounce_pair p1 p2 dist).1.vx + p2.mass * (bounce_pair p1 p2 dist).2.vx
       = p1.mass * p1.vx + p2.mass * p2.vx ∧
     p1.mass * (bounce_pair p1 p2 dist).1.vy + p2.mass * (bounce_pair p1 p2 dist).2.vy
       = p1.mass * p1.vy + p2.mass * p2.vy) ∧
    (p1.mass * ((bounce_pair p1 p2 dist).1.vx ^ 2 + (bounce_pair p1 p2 dist).1.vy ^ 2)
       + p2.mass * ((bounce_pair p1 p2 dist).2.vx ^ 2 + (bounce_pair p1 p2 dist).2.vy ^ 2)
       = p1.mass * (p1.vx ^ 2 + p1.vy ^ 2) + p2.mass * (p2.vx ^ 2 + p2.vy ^ 2)) ∧
    ((bounce_pair p1 p2 dist).1.vx * (-((p2.y - p1.y) / dist))
       + (bounce_pair p1 p2 dist).1.vy * ((p2.x - p1.x) / dist)
       = p1.vx * (-((p2.y - p1.y) / dist)) + p1.vy * ((p2.x - p1.x) / dist) ∧
     (bounce_pair p1 p2 dist).2.vx * (-((p2.y - p1.y) / dist))
       + (bounce_pair p1 p2 dist).2.vy * ((p2.x - p1.x) / dist)
       = p2.vx * (-((p2.y - p1.y) / dist)) + p2.vy * ((p2.x - p1.x) / dist)) ∧
    (∀ a : ℚ, p1.mass = p2.mass →
      p1.vx = a * ((p2.x - p1.x) / dist) → p1.vy = a * ((p2.y - p1.y) / dist) →
      p2.vx = -(a * ((p2.x - p1.x) / dist)) → p2.vy = -(a * ((p2.y - p1.y) / dist)) →
      (bounce_pair p1 p2 dist).1.vx = p2.vx ∧ (bounce_pair p1 p2 dist).1.vy = p2.vy ∧
      (bounce_pair p1 p2 dist).2.vx = p1.vx ∧ (bounce_pair p1 p2 dist).2.vy = p1.vy) := by
  have hcoll : are_colliding p1 p2 = true := by
    rw [are_colliding, decide_eq_true_eq]
    nlinarith [hov, hdist]
  have hM : p1.mass + p2.mass ≠ 0 := by positivity
  have hd0 : dist ≠ 0 := ne_of_gt hdist
  have hn : ((p2.x - p1.x) / dist) ^ 2 + ((p2.y - p1.y) / dist) ^ 2 = 1 := by
    field_simp
    linear_combination -hd2
  simp only [bounce_pair, hcoll, if_true]
  rw [if_pos hov]
  split_ifs
  refine ⟨⟨rfl, rfl⟩, ⟨?_, ?_⟩, ?_, ⟨?_, ?_⟩, ?_⟩
  · field_simp; ring
  · field_simp; ring
  · set nx := (p2.x - p1.x) / dist with hnx
    set ny := (p2.y - p1.y) / dist with hny
    field_simp
    linear_combination (4 * p1.mass * p2.mass
      * ((p1.vx - p2.vx) * nx + (p1.vy - p2.vy) * ny) ^ 2 * (p1.mass + p2.mass)) * hn
  · field_simp; ring
  · field_simp; ring
  · intro a hm h1x h1y h2x h2y
    set nx := (p2.x - p1.x) / dist with hnx
    set ny := (p2.y - p1.y) / dist with hny
    have hD : (p1.vx - p2.vx) * nx + (p1.vy - p2.vy) * ny = 2 * a := by
      rw [h1x, h1y, h2x, h2y]
      linear_combination (2 * a) * hn
    rw [hD, ← hm]
    refine ⟨?_, ?_, ?_, ?_⟩ <;>
      (rw [h1x, h1y, h2x, h2y]; field_simp; ring)

/-- First concrete particle for the C4 witness. -/
def c4p1 : Particle :=
  { x := 0, y := 0, vx := -1, vy := 0, mass := 1, symbol := "H", color := (255, 0, 0), radius := 1 }

/-- Second concrete particle for the C4 witness. -/
def c4p2 : Particle :=
  { x := 1, y := 0, vx := 1, vy := 0, mass := 1, symbol := "H", color := (255, 0, 0), radius := 1 }

theorem claim_C4_elastic_bounce_conservation_witness :
    (bounce_pair c4p1 c4p2 1).1.vx = c4p2.vx ∧
    (bounce_pair c4p1 c4p2 1).1.vy = c4p2.vy ∧
    (bounce_pair c4p1 c4p2 1).2.vx = c4p1.vx ∧
    (bounce_pair c4p1 c4p2 1).2.vy = c4p1.vy := by
  have h := (claim_C4_elastic_bounce_conservation c4p1 c4p2 1
    (by norm_num [c4p1]) (by norm_num [c4p2]) (by norm_num)
    (by norm_num [c4p1, c4p2]) (by norm_num [c4p1, c4p2])
    (by norm_num [c4p1, c4p2])).2.2.2.2 (-1)
    (by norm_num [c4p1, c4p2]) (by norm_num [c4p1, c4p2]) (by norm_num [c4p1, c4p2])
    (by norm_num [c4p1, c4p2]) (by norm_num [c4p1, c4p2])
  exact h

/-- C10: for an overlapping pair whose relative-velocity component along the
collision normal is nonnegative (the code's `dot < 0` guard fails), the
elastic-bounce body still applies the positional separation — each particle
is moved by half the overlap along the line of centers — while all four
velocity components (and masses) are left unchanged. -/
theorem claim_C10_separating_pair_positions_only (p1 p2 : Particle) (dist : ℚ)
    (hdist : 0 < dist)
    (hd2 : dist * dist = (p2.x - p1.x) * (p2.x - p1.x) + (p2.y - p1.y) * (p2.y - p1.y))
    (hov : (p1.radius + p2.radius) - dist > 0)
    (hdot : 0 ≤ (p1.vx - p2.vx) * ((p2.x - p1.x) / dist)
          + (p1.vy - p2.vy) * ((p2.y - p1.y) / dist)) :
    (bounce_pair p1 p2 dist).1.x
        = p1.x - ((p2.x - p1.x) / dist) * (((p1.radius + p2.radius) - dist) * 0.5) ∧
    (bounce_pair p1 p2 dist).1.y
        = p1.y - ((p2.y - p1.y) / dist) * (((p1.radius + p2.radius) - dist) * 0.5) ∧
    (bounce_pair p1 p2 dist).2.x
        = p2.x + ((p2.x - p1.x) / dist) * (((p1.radius + p2.radius) - dist) * 0.5) ∧
    (bounce_pair p1 p2 dist).2.y
        = p2.y + ((p2.y - p1.y) / dist) * (((p1.radius + p2.radius) - dist) * 0.5) ∧
    (bounce_pair p1 p2 dist).1.vx = p1.vx ∧ (bounce_pair p1 p2 dist).1.vy = p1.vy ∧
    (bounce_pair p1 p2 dist).2.vx = p2.vx ∧ (bounce_pair p1 p2 dist).2.vy = p2.vy ∧
    (bounce_pair p1 p2 dist).1.mass = p1.mass ∧
    (bounce_pair p1 p2 dist).2.mass = p2.mass := by
  have hcoll : are_colliding p1 p2 = true := by
    rw [are_colliding, decide_eq_true_eq]
    nlinarith [hov, hdist]
  simp only [bounce_pair, hcoll, if_true]
  rw [if_pos hov]
  split_ifs with h
  · exact absurd h (not_lt.mpr hdot)
  · exact ⟨rfl, rfl, rfl, rfl, rfl, rfl, rfl, rfl, rfl, rfl⟩

/-- First concrete particle for the C10 witness (approaching head-on, so the
code's `dot < 0` guard fails and only positions change). -/
def c10p1 : Particle :=
  { x := 0, y := 0, vx := 1, vy := 0, mass := 1, symbol := "H", color := (255, 0, 0), radius := 1 }

/-- Second concrete particle for the C10 witness. -/
def c10p2 : Particle :=
  { x := 1, y := 0, vx := -1, vy := 0, mass := 1, symbol := "H", color := (255, 0, 0), radius := 1 }

theorem claim_C10_separating_pair_positions_only_witness :
    (bounce_pair c10p1 c10p2 1).1.vx = c10p1.vx ∧
    (bounce_pair c10p1 c10p2 1).2.vx = c10p2.vx :=
  have h := claim_C10_separating_pair_positions_only c10p1 c10p2 1
    (by norm_num) (by norm_num [c10p1, c10p2]) (by norm_num [c10p1, c10p2])
    (by norm_num [c10p1, c10p2])
  ⟨h.2.2.2.2.1, h.2.2.2.2.2.2.1⟩

/-- C9: after `apply_forces` (gravity added to `vy`, then the conditional
rescale), the squared speed never exceeds `MAX_SPEED_SQ`; in the rescale
branch it lands exactly on the cap.  `sp` stands for the computed
`math.sqrt(sp_sq)`, characterized by the two hypotheses. -/
theorem claim_C9_speed_cap (p : Particle) (dt sp : ℚ)
    (hsp : sp * sp = p.vx * p.vx + (p.vy + GRAVITY * dt) * (p.vy + GRAVITY * dt))
    (hsp0 : 0 ≤ sp) :
    (apply_forces p dt sp).vx ^ 2 + (apply_forces p dt sp).vy ^ 2 ≤ MAX_SPEED_SQ := by
  simp only [apply_forces]
  split_ifs with h
  · have hms : (0:ℚ) < MAX_SPEED_SQ := by norm_num [MAX_SPEED_SQ, MAX_SPEED]
    have hsp' : 0 < sp := by nlinarith
    have heq : (p.vx * (MAX_SPEED / sp)) ^ 2
        + ((p.vy + GRAVITY * dt) * (MAX_SPEED / sp)) ^ 2 = MAX_SPEED_SQ := by
      rw [MAX_SPEED_SQ]
      field_simp
      linear_combination (-(MAX_SPEED ^ 2)) * hsp
    exact le_of_eq heq
  · rw [not_lt] at h
    dsimp only
    nlinarith [h]

/-- Concrete particle for the C9 witness. -/
def c9p : Particle :=
  { x := 0, y := 0, vx := 0, vy := 0, mass := 1, symbol := "H", color := (255, 0, 0), radius := 6 }

theorem claim_C9_speed_cap_witness :
    (apply_forces c9p 1 GRAVITY).vx ^ 2 + (apply_forces c9p 1 GRAVITY).vy ^ 2
      ≤ MAX_SPEED_SQ :=
  claim_C9_speed_cap c9p 1 GRAVITY (by norm_num [c9p, GRAVITY])
    (by norm_num [GRAVITY])

/-- Concrete particle crossing the left bound for the C8 counterexample:
after reflection its `vx` is `1/4`, which has magnitude below `1` yet is
not zero-snapped (the code zero-snaps only at the floor). -/
def c8p : Particle :=
  { x := 5, y := 50, vx := -1/2, vy := 0, mass := 1, symbol := "H", color := (255, 0, 0), radius := 6 }

/-- C8 counterexample: the claim predicts a small-speed zero-snap at every
bound, so this left-bound reflection with `|reflected vx| = 1/4 < 1` should
end with `vx = 0`; the code leaves `vx = 1/4 ≠ 0`. -/
theorem claim_C8_boundary_zero_snap_counterexample :
    (update_position c8p 1 100 100).vx = 1/4 ∧
    |(update_position c8p 1 100 100).vx| < 1 ∧
    (update_position c8p 1 100 100).vx ≠ 0 := by
  norm_num [update_position, floor_step, top_step, left_step, right_step, c8p, abs_lt]

/-- C8 (amended): `update_position` advances the position by
`velocity * dt`; on crossing a bound it clamps the position back to that
boundary and reflects the offending velocity component scaled by `0.5`,
only when that component is directed into the boundary; the small-speed
zero-snap (`|vy| < 1` after reflection sets it to `0`) is applied *only at
the floor bound* — the top, left and right bounds reflect without any
zero-snap.  Each conjunct isolates one bound (side conditions keep the
other three blocks from triggering). -/
theorem claim_C8_boundary_response_amended (p : Particle)
    (dt main_width main_height : ℚ) :
    ((p.y + p.vy * dt) + p.radius < main_height →
     0 ≤ (p.y + p.vy * dt) - p.radius →
     0 ≤ (p.x + p.vx * dt) - p.radius →
     (p.x + p.vx * dt) + p.radius ≤ main_width →
     update_position p dt main_width main_height
       = { p with x := p.x + p.vx * dt, y := p.y + p.vy * dt }) ∧
    (main_height ≤ (p.y + p.vy * dt) + p.radius →
     p.radius + p.radius ≤ main_height →
     0 ≤ (p.x + p.vx * dt) - p.radius →
     (p.x + p.vx * dt) + p.radius ≤ main_width →
     (update_position p dt main_width main_height).y = main_height - p.radius ∧
     (update_position p dt main_width main_height).x = p.x + p.vx * dt ∧
     (update_position p dt main_width main_height).vx = p.vx ∧
     (update_position p dt main_width main_height).vy
       = if 0 < p.vy then (if |(-0.5 : ℚ) * p.vy| < 1 then 0 else -0.5 * p.vy)
         else p.vy) ∧
    ((p.y + p.vy * dt) + p.radius < main_height →
     (p.y + p.vy * dt) - p.radius < 0 →
     0 ≤ (p.x + p.vx * dt) - p.radius →
     (p.x + p.vx * dt) + p.radius ≤ main_width →
     (update_position p dt main_width main_height).y = p.radius ∧
     (update_position p dt main_width main_height).x = p.x + p.vx * dt ∧
     (update_position p dt main_width main_height).vx = p.vx ∧
     (update_position p dt main_width main_height).vy
       = if p.vy < 0 then -0.5 * p.vy else p.vy) ∧
    ((p.y + p.vy * dt) + p.radius < main_height →
     0 ≤ (p.y + p.vy * dt) - p.radius →
     (p.x + p.vx * dt) - p.radius < 0 →
     p.radius + p.radius ≤ main_width →
     (update_position p dt main_width main_height).x = p.radius ∧
     (update_position p dt main_width main_height).y = p.y + p.vy * dt ∧
     (update_position p dt main_width main_height).vy = p.vy ∧
     (update_position p dt main_width main_height).vx
       = if p.vx < 0 then -0.5 * p.vx else p.vx) ∧
    ((p.y + p.vy * dt) + p.radius < main_height →
     0 ≤ (p.y + p.vy * dt) - p.radius →
     0 ≤ (p.x + p.vx * dt) - p.radius →
     main_width < (p.x + p.vx * dt) + p.radius →
     (update_position p dt main_width main_height).x = main_width - p.radius ∧
     (update_position p dt main_width main_height).y = p.y + p.vy * dt ∧
     (update_position p dt main_width main_height).vy = p.vy ∧
     (update_position p dt main_width main_height).vx
       = if 0 < p.vx then -0.5 * p.vx else p.vx) := by
  refine ⟨?_, ?_, ?_, ?_, ?_⟩
  · intro h1 h2 h3 h4
    unfold update_position
    rw [show floor_step { p with x := p.x + p.vx * dt, y := p.y + p.vy * dt } main_height
          = { p with x := p.x + p.vx * dt, y := p.y + p.vy * dt } by
        rw [floor_step, if_neg (not_le.mpr (by dsimp only; linarith))]]
    rw [show top_step { p with x := p.x + p.vx * dt, y := p.y + p.vy * dt }
          = { p with x := p.x + p.vx * dt, y := p.y + p.vy * dt } by
        rw [top_step, if_neg (not_lt.mpr (by dsimp only; linarith))]]
    rw [show left_step { p with x := p.x + p.vx * dt, y := p.y + p.vy * dt }
          = { p with x := p.x + p.vx * dt, y := p.y + p.vy * dt } by
        rw [left_step, if_neg (not_lt.mpr (by dsimp only; linarith))]]
    rw [right_step, if_neg (not_lt.mpr (by dsimp only; linarith))]
  · intro h1 h2 h3 h4
    have hfl : floor_step { p with x := p.x + p.vx * dt, y := p.y + p.vy * dt } main_height
        = { p with
            x := p.x + p.vx * dt,
            y := main_height - p.radius,
            vy := (if 0 < p.vy then (if |(-0.5 : ℚ) * p.vy| < 1 then 0 else -0.5 * p.vy)
                  else p.vy) } := by
      rw [floor_step, if_pos (by dsimp only; linarith)]
      dsimp only
      split_ifs with hv hsnap
      · congr 1; ring
      · congr 1; ring
      · congr 1; ring
    unfold update_position
    rw [hfl]
    rw [show top_step { p with
            x := p.x + p.vx * dt,
            y := main_height - p.radius,
            vy := (if 0 < p.vy then (if |(-0.5 : ℚ) * p.vy| < 1 then 0 else -0.5 * p.vy)
                  else p.vy) }
          = { p with
            x := p.x + p.vx * dt,
            y := main_height - p.radius,
            vy := (if 0 < p.vy then (if |(-0.5 : ℚ) * p.vy| < 1 then 0 else -0.5 * p.vy)
                  else p.vy) } by
        rw [top_step, if_neg (not_lt.mpr (by dsimp only; linarith))]]
    rw [show left_step { p with
            x := p.x + p.vx * dt,
            y := main_height - p.radius,
            vy := (if 0 < p.vy then (if |(-0.5 : ℚ) * p.vy| < 1 then 0 else -0.5 * p.vy)
                  else p.vy) }
          = { p with
            x := p.x + p.vx * dt,
            y := main_height - p.radius,
            vy := (if 0 < p.vy then (if |(-0.5 : ℚ) * p.vy| < 1 then 0 else -0.5 * p.vy)
                  else p.vy) } by
        rw [left_step, if_neg (not_lt.mpr (by dsimp only; linarith))]]
    rw [right_step, if_neg (not_lt.mpr (by dsimp only; linarith))]
    exact ⟨rfl, rfl, rfl, rfl⟩
  · intro h1 h2 h3 h4
    have htp : top_step { p with x := p.x + p.vx * dt, y := p.y + p.vy * dt }
        = { p with
            x := p.x + p.vx * dt,
            y := p.radius,
            vy := (if p.vy < 0 then -0.5 * p.vy else p.vy) } := by
      rw [top_step, if_pos (by dsimp only; linarith)]
      dsimp only
      split_ifs with hv
      · congr 1; ring
      · congr 1; ring
    unfold update_position
    rw [show floor_step { p with x := p.x + p.vx * dt, y := p.y + p.vy * dt } main_height
          = { p with x := p.x + p.vx * dt, y := p.y + p.vy * dt } by
        rw [floor_step, if_neg (not_le.mpr (by dsimp only; linarith))]]
    rw [htp]
    rw [show left_step { p with
            x := p.x + p.vx * dt,
            y := p.radius,
            vy := (if p.vy < 0 then -0.5 * p.vy else p.vy) }
          = { p with
            x := p.x + p.vx * dt,
            y := p.radius,
            vy := (if p.vy < 0 then -0.5 * p.vy else p.vy) } by
        rw [left_step, if_neg (not_lt.mpr (by dsimp only; linarith))]]
    rw [right_step, if_neg (not_lt.mpr (by dsimp only; linarith))]
    exact ⟨rfl, rfl, rfl, rfl⟩
  · intro h1 h2 h3 h4
    have hlf : left_step { p with x := p.x + p.vx * dt, y := p.y + p.vy * dt }
        = { p with
            x := p.radius,
            y := p.y + p.vy * dt,
            vx := (if p.vx < 0 then -0.5 * p.vx else p.vx) } := by
      rw [left_step, if_pos (by dsimp only; linarith)]
      dsimp only
      split_ifs with hv
      · congr 1; ring
      · congr 1; ring
    unfold update_position
    rw [show floor_step { p with x := p.x + p.vx * dt, y := p.y + p.vy * dt } main_height
          = { p with x := p.x + p.vx * dt, y := p.y + p.vy * dt } by
        rw [floor_step, if_neg (not_le.mpr (by dsimp only; linarith))]]
    rw [show top_step { p with x := p.x + p.vx * dt, y := p.y + p.vy * dt }
          = { p with x := p.x + p.vx * dt, y := p.y + p.vy * dt } by
        rw [top_step, if_neg (not_lt.mpr (by dsimp only; linarith))]]
    rw [hlf]
    rw [right_step, if_neg (not_lt.mpr (by dsimp only; linarith))]
    exact ⟨rfl, rfl, rfl, rfl⟩
  · intro h1 h2 h3 h4
    unfold update_position
    rw [show floor_step { p with x := p.x + p.vx * dt, y := p.y + p.vy * dt } main_height
          = { p with x := p.x + p.vx * dt, y := p.y + p.vy * dt } by
        rw [floor_step, if_neg (not_le.mpr (by dsimp only; linarith))]]
    rw [show top_step { p with x := p.x + p.vx * dt, y := p.y + p.vy * dt }
          = { p with x := p.x + p.vx * dt, y := p.y + p.vy * dt } by
        rw [top_step, if_neg (not_lt.mpr (by dsimp only; linarith))]]
    rw [show left_step { p with x := p.x + p.vx * dt, y := p.y + p.vy * dt }
          = { p with x := p.x + p.vx * dt, y := p.y + p.vy * dt } by
        rw [left_step, if_neg (not_lt.mpr (by dsimp only; linarith))]]
    rw [right_step, if_pos (by dsimp only; linarith)]
    dsimp only
    split_ifs with hv
    · exact ⟨by ring, rfl, rfl, rfl⟩
    · exact ⟨by ring, rfl, rfl, rfl⟩

/-- Concrete particle for the C8 amended-claim witness (floor bounce with a
large reflected speed, so no snap). -/
def c8w : Particle :=
  { x := 50, y := 95, vx := 0, vy := 10, mass := 1, symbol := "H", color := (255, 0, 0), radius := 6 }

theorem claim_C8_boundary_response_amended_witness :
    (update_position c8w 1 100 100).y = 100 - c8w.radius ∧
    (update_position c8w 1 100 100).x = c8w.x + c8w.vx * 1 ∧
    (update_position c8w 1 100 100).vx = c8w.vx ∧
    (update_position c8w 1 100 100).vy
      = if 0 < c8w.vy then (if |(-0.5 : ℚ) * c8w.vy| < 1 then 0 else -0.5 * c8w.vy)
        else c8w.vy :=
  (claim_C8_boundary_response_amended c8w 1 100 100).2.1
    (by norm_num [c8w]) (by norm_num [c8w]) (by norm_num [c8w]) (by norm_num [c8w])

/-- Three mutually-overlapping H atoms of mass 1 (radius 6) — the C5
failing input: all three unordered index pairs collide. -/
def c5ps : List Particle :=
  [{ x := 0, y := 0, vx := 0, vy := 0, mass := 1, symbol := "H", color := (255, 0, 0), radius := 6 },
   { x := 5, y := 0, vx := 0, vy := 0, mass := 1, symbol := "H", color := (255, 0, 0), radius := 6 },
   { x := 2, y := 8, vx := 0, vy := 0, mass := 1, symbol := "H", color := (255, 0, 0), radius := 6 }]

/-- The colliding pairs of `c5ps`, exactly as `resolve_collisions` computes
them before running the reaction passes. -/
def c5pairs : List (ℕ × ℕ) := detect_overlapping_pairs c5ps (build_spatial_grid c5ps)

/-- C5 (refuting evaluation): on three mutually-overlapping H atoms, the
diatomic pass matches `(0, 1)` and then `(0, 2)` — index 0 is consumed by
*two* matches of the same pass, because the inner loop never re-checks the
outer index against the consumed set after a match.  The pass emits two H₂
products of total mass 4 from reactants of total mass 3, so a consumed
particle is reused as a reactant, contrary to the claim. -/
theorem claim_C5_consumed_index_reused :
    c5pairs = [(0, 1), (0, 2), (1, 2)] ∧
    (pair_scan diatomic_branch c5ps c5pairs).2.map Prod.fst = [(0, 1), (0, 2)] ∧
    ((pairwise_reactions_diatomic c5ps c5pairs).map Particle.mass).sum = 4 ∧
    (c5ps.map Particle.mass).sum = 3 := by
  have hlen : c5ps.length = 3 := rfl
  have hgrid : build_spatial_grid c5ps = [(0, 1), (0, 2), (1, 2)] := by
    have hc0 : cell_of (pget c5ps 0) = (0, 0) := by
      norm_num [cell_of, pget, c5ps, CELL_SIZE, Prod.ext_iff]
    have hc1 : cell_of (pget c5ps 1) = (0, 0) := by
      norm_num [cell_of, pget, c5ps, CELL_SIZE, Prod.ext_iff]
    have hc2 : cell_of (pget c5ps 2) = (0, 0) := by
      norm_num [cell_of, pget, c5ps, CELL_SIZE, Prod.ext_iff]
    simp only [build_spatial_grid, hlen]
    simp [List.range_succ, hc0, hc1, hc2, neighbor_offsets]
  have hdet : c5pairs = [(0, 1), (0, 2), (1, 2)] := by
    rw [c5pairs, hgrid]
    have h01 : are_colliding (pget c5ps 0) (pget c5ps 1) = true := by
      norm_num [are_colliding, pget, c5ps]
    have h02 : are_colliding (pget c5ps 0) (pget c5ps 2) = true := by
      norm_num [are_colliding, pget, c5ps]
    have h12 : are_colliding (pget c5ps 1) (pget c5ps 2) = true := by
      norm_num [are_colliding, pget, c5ps]
    simp [detect_overlapping_pairs, h01, h02, h12]
  have hscan : pair_scan diatomic_branch c5ps c5pairs
      = ([0, 2, 0, 1],
         [((0, 1), combine_two (pget c5ps 0) (pget c5ps 1) H2_DATA),
          ((0, 2), combine_two (pget c5ps 0) (pget c5ps 2) H2_DATA)]) := by
    rw [hdet]
    simp only [pair_scan, hlen]
    simp [List.range_succ, List.range', pair_inner, diatomic_branch, pget, c5ps]
  refine ⟨hdet, ?_, ?_, ?_⟩
  · rw [hscan]
    simp
  · rw [pairwise_reactions_diatomic, hscan]
    norm_num [remove_indices, c5ps, combine_two, mkParticle, pget, List.enum]
  · norm_num [c5ps]

/-- C2: on a list of exactly two overlapping zero-velocity "H" particles,
one run of the diatomic pass (fed the colliding pairs the pipeline detects)
removes both and appends exactly one "H₂" particle of combined mass, zero
velocity, positioned at the midpoint.  The radius hypotheses express the
broadphase regime the spec fixes (`CELL_SIZE` larger than any radius sum,
radii nonnegative). -/
theorem claim_C2_two_H_react_to_H2 (p q : Particle)
    (hp : p.symbol = "H") (hq : q.symbol = "H")
    (hpx : p.vx = 0) (hpy : p.vy = 0) (hqx : q.vx = 0) (hqy : q.vy = 0)
    (hcol : are_colliding p q = true)
    (hrp : 0 ≤ p.radius) (hrq : 0 ≤ q.radius)
    (hsum : p.radius + q.radius ≤ CELL_SIZE) :
    pairwise_reactions_diatomic [p, q]
        (detect_overlapping_pairs [p, q] (build_spatial_grid [p, q]))
      = [{ mkParticle ((p.x + q.x) / 2) ((p.y + q.y) / 2) (p.mass + q.mass)
             "H₂" H2_DATA.color H2_DATA.radius with vx := 0, vy := 0 }] := by
  have hoff := cells_adjacent_of_colliding p q hcol hrp hrq hsum
  have hgrid : build_spatial_grid [p, q] = [(0, 1)] := by
    simp [build_spatial_grid, List.range_succ, pget, hoff]
  have hdet : detect_overlapping_pairs [p, q] (build_spatial_grid [p, q]) = [(0, 1)] := by
    rw [hgrid]
    simp [detect_overlapping_pairs, pget, hcol]
  have hscan : pair_scan diatomic_branch [p, q] [(0, 1)]
      = ([0, 1], [((0, 1), combine_two p q H2_DATA)]) := by
    simp [pair_scan, List.range_succ, List.range', pair_inner, diatomic_branch,
      pget, hp, hq]
  rw [hdet, pairwise_reactions_diatomic, hscan]
  simp only [remove_indices, List.enum]
  simp [combine_two, mkParticle, hpx, hpy, hqx, hqy, H2_DATA]
  constructor
  · ring
  · ring

/-- First concrete H atom for the C2 witness. -/
def c2p : Particle :=
  { x := 0, y := 0, vx := 0, vy := 0, mass := 1, symbol := "H", color := (255, 0, 0), radius := 6 }

/-- Second concrete H atom for the C2 witness. -/
def c2q : Particle :=
  { x := 5, y := 0, vx := 0, vy := 0, mass := 1, symbol := "H", color := (255, 0, 0), radius := 6 }

theorem claim_C2_two_H_react_to_H2_witness :
    pairwise_reactions_diatomic [c2p, c2q]
        (detect_overlapping_pairs [c2p, c2q] (build_spatial_grid [c2p, c2q]))
      = [{ mkParticle ((c2p.x + c2q.x) / 2) ((c2p.y + c2q.y) / 2) (c2p.mass + c2q.mass)
             "H₂" H2_DATA.color H2_DATA.radius with vx := 0, vy := 0 }] :=
  claim_C2_two_H_react_to_H2 c2p c2q rfl rfl rfl rfl rfl rfl
    (by norm_num [are_colliding, c2p, c2q]) (by norm_num [c2p]) (by norm_num [c2q])
    (by norm_num [c2p, c2q, CELL_SIZE])


/-- Decomposition of the `count == 2 / count == 1` stoichiometry test on a
three-symbol list into its three possible arrangements. -/
theorem count_two_one (s1 s2 s3 x y : String) (hxy : x ≠ y)
    (h2 : [s1, s2, s3].count x = 2) (h1 : [s1, s2, s3].count y = 1) :
    (s1 = x ∧ s2 = x ∧ s3 = y) ∨ (s1 = x ∧ s2 = y ∧ s3 = x) ∨
    (s1 = y ∧ s2 = x ∧ s3 = x) := by
  simp [List.count_cons, List.count_nil] at h2 h1
  by_cases e1 : s1 = x <;> by_cases e2 : s2 = x <;> by_cases e3 : s3 = x <;>
    by_cases f1 : s1 = y <;> by_cases f2 : s2 = y <;> by_cases f3 : s3 = y <;>
    simp_all

/-- Decomposition of the `count == 1 / count == 3` stoichiometry test on a
four-symbol list into its four possible arrangements. -/
theorem count_one_three (s1 s2 s3 s4 x y : String) (hxy : x ≠ y)
    (h1 : [s1, s2, s3, s4].count x = 1) (h3 : [s1, s2, s3, s4].count y = 3) :
    (s1 = x ∧ s2 = y ∧ s3 = y ∧ s4 = y) ∨ (s1 = y ∧ s2 = x ∧ s3 = y ∧ s4 = y) ∨
    (s1 = y ∧ s2 = y ∧ s3 = x ∧ s4 = y) ∨ (s1 = y ∧ s2 = y ∧ s3 = y ∧ s4 = x) := by
  simp [List.count_cons, List.count_nil] at h1 h3
  by_cases e1 : s1 = x <;> by_cases e2 : s2 = x <;> by_cases e3 : s3 = x <;>
    by_cases e4 : s4 = x <;> by_cases f1 : s1 = y <;> by_cases f2 : s2 = y <;>
    by_cases f3 : s3 = y <;> by_cases f4 : s4 = y <;>
    simp_all

set_option maxHeartbeats 2000000 in
/-- C7: if every particle's mass matches its species' registry mass, then
every product recorded by any of the four reaction passes has mass equal to
the registry mass of its product species, and radius and color taken
directly from the product species' registry entry. -/
theorem claim_C7_registry_consistency (ps : List Particle)
    (pairs : List (ℕ × ℕ)) (hps : ∀ p ∈ ps, mass_registry_consistent p) :
    (∀ m ∈ (pair_scan diatomic_branch ps pairs).2, product_registry_consistent m.2) ∧
    (∀ m ∈ (pair_scan extra_branch ps pairs).2, product_registry_consistent m.2) ∧
    (∀ m ∈ (triple_scan ps pairs).2, ∀ q ∈ m.2, product_registry_consistent q) ∧
    (∀ m ∈ (quad_scan ps pairs).2, ∀ q ∈ m.2, product_registry_consistent q) := by
  refine ⟨?_, ?_, ?_, ?_⟩
  · intro m hm
    obtain ⟨i, j, hm1, hij, hjlen, hpair, d, hbr, hprod⟩ :=
      pair_scan_spec diatomic_branch ps pairs m hm
    have hai := hps _ (pget_mem ps i (lt_trans hij hjlen))
    have haj := hps _ (pget_mem ps j hjlen)
    rw [hprod]
    revert hbr
    unfold diatomic_branch
    split_ifs with h1 h2 h3 h4 h5 h6 h7 h8 <;> intro hbr
    · injection hbr with hd; subst hd
      rw [mass_registry_consistent, h1.1] at hai
      rw [mass_registry_consistent, h1.2] at haj
      simp [registry_entry, H_ATOM, HE_ATOM, LI_ATOM, BE_ATOM, B_ATOM, C_ATOM, N_ATOM, O_ATOM, F_ATOM, NE_ATOM, NA_ATOM, MG_ATOM, H2_DATA, N2_DATA, O2_DATA, HE2_DATA, LI2_DATA, BE2_DATA, B2_DATA, F2_DATA, CO2_DATA, NO_DATA, HEH_DATA, LIH_DATA, BEO_DATA, BF_DATA, NEF_DATA, H2O_DATA, N2O_DATA, NH3_DATA, CO_DATA, NO2_DATA, CH4_DATA] at hai haj
      simp [product_registry_consistent, combine_two, mkParticle, registry_entry, H_ATOM, HE_ATOM, LI_ATOM, BE_ATOM, B_ATOM, C_ATOM, N_ATOM, O_ATOM, F_ATOM, NE_ATOM, NA_ATOM, MG_ATOM, H2_DATA, N2_DATA, O2_DATA, HE2_DATA, LI2_DATA, BE2_DATA, B2_DATA, F2_DATA, CO2_DATA, NO_DATA, HEH_DATA, LIH_DATA, BEO_DATA, BF_DATA, NEF_DATA, H2O_DATA, N2O_DATA, NH3_DATA, CO_DATA, NO2_DATA, CH4_DATA]
      linarith [hai, haj]
    · injection hbr with hd; subst hd
      rw [mass_registry_consistent, h2.1] at hai
      rw [mass_registry_consistent, h2.2] at haj
      simp [registry_entry, H_ATOM, HE_ATOM, LI_ATOM, BE_ATOM, B_ATOM, C_ATOM, N_ATOM, O_ATOM, F_ATOM, NE_ATOM, NA_ATOM, MG_ATOM, H2_DATA, N2_DATA, O2_DATA, HE2_DATA, LI2_DATA, BE2_DATA, B2_DATA, F2_DATA, CO2_DATA, NO_DATA, HEH_DATA, LIH_DATA, BEO_DATA, BF_DATA, NEF_DATA, H2O_DATA, N2O_DATA, NH3_DATA, CO_DATA, NO2_DATA, CH4_DATA] at hai haj
      simp [product_registry_consistent, combine_two, mkParticle, registry_entry, H_ATOM, HE_ATOM, LI_ATOM, BE_ATOM, B_ATOM, C_ATOM, N_ATOM, O_ATOM, F_ATOM, NE_ATOM, NA_ATOM, MG_ATOM, H2_DATA, N2_DATA, O2_DATA, HE2_DATA, LI2_DATA, BE2_DATA, B2_DATA, F2_DATA, CO2_DATA, NO_DATA, HEH_DATA, LIH_DATA, BEO_DATA, BF_DATA, NEF_DATA, H2O_DATA, N2O_DATA, NH3_DATA, CO_DATA, NO2_DATA, CH4_DATA]
      linarith [hai, haj]
    · injection hbr with hd; subst hd
      rw [mass_registry_consistent, h3.1] at hai
      rw [mass_registry_consistent, h3.2] at haj
      simp [registry_entry, H_ATOM, HE_ATOM, LI_ATOM, BE_ATOM, B_ATOM, C_ATOM, N_ATOM, O_ATOM, F_ATOM, NE_ATOM, NA_ATOM, MG_ATOM, H2_DATA, N2_DATA, O2_DATA, HE2_DATA, LI2_DATA, BE2_DATA, B2_DATA, F2_DATA, CO2_DATA, NO_DATA, HEH_DATA, LIH_DATA, BEO_DATA, BF_DATA, NEF_DATA, H2O_DATA, N2O_DATA, NH3_DATA, CO_DATA, NO2_DATA, CH4_DATA] at hai haj
      simp [product_registry_consistent, combine_two, mkParticle, registry_entry, H_ATOM, HE_ATOM, LI_ATOM, BE_ATOM, B_ATOM, C_ATOM, N_ATOM, O_ATOM, F_ATOM, NE_ATOM, NA_ATOM, MG_ATOM, H2_DATA, N2_DATA, O2_DATA, HE2_DATA, LI2_DATA, BE2_DATA, B2_DATA, F2_DATA, CO2_DATA, NO_DATA, HEH_DATA, LIH_DATA, BEO_DATA, BF_DATA, NEF_DATA, H2O_DATA, N2O_DATA, NH3_DATA, CO_DATA, NO2_DATA, CH4_DATA]
      linarith [hai, haj]
    · injection hbr with hd; subst hd
      rw [mass_registry_consistent, h4.1] at hai
      rw [mass_registry_consistent, h4.2] at haj
      simp [registry_entry, H_ATOM, HE_ATOM, LI_ATOM, BE_ATOM, B_ATOM, C_ATOM, N_ATOM, O_ATOM, F_ATOM, NE_ATOM, NA_ATOM, MG_ATOM, H2_DATA, N2_DATA, O2_DATA, HE2_DATA, LI2_DATA, BE2_DATA, B2_DATA, F2_DATA, CO2_DATA, NO_DATA, HEH_DATA, LIH_DATA, BEO_DATA, BF_DATA, NEF_DATA, H2O_DATA, N2O_DATA, NH3_DATA, CO_DATA, NO2_DATA, CH4_DATA] at hai haj
      simp [product_registry_consistent, combine_two, mkParticle, registry_entry, H_ATOM, HE_ATOM, LI_ATOM, BE_ATOM, B_ATOM, C_ATOM, N_ATOM, O_ATOM, F_ATOM, NE_ATOM, NA_ATOM, MG_ATOM, H2_DATA, N2_DATA, O2_DATA, HE2_DATA, LI2_DATA, BE2_DATA, B2_DATA, F2_DATA, CO2_DATA, NO_DATA, HEH_DATA, LIH_DATA, BEO_DATA, BF_DATA, NEF_DATA, H2O_DATA, N2O_DATA, NH3_DATA, CO_DATA, NO2_DATA, CH4_DATA]
      linarith [hai, haj]
    · injection hbr with hd; subst hd
      rw [mass_registry_consistent, h5.1] at hai
      rw [mass_registry_consistent, h5.2] at haj
      simp [registry_entry, H_ATOM, HE_ATOM, LI_ATOM, BE_ATOM, B_ATOM, C_ATOM, N_ATOM, O_ATOM, F_ATOM, NE_ATOM, NA_ATOM, MG_ATOM, H2_DATA, N2_DATA, O2_DATA, HE2_DATA, LI2_DATA, BE2_DATA, B2_DATA, F2_DATA, CO2_DATA, NO_DATA, HEH_DATA, LIH_DATA, BEO_DATA, BF_DATA, NEF_DATA, H2O_DATA, N2O_DATA, NH3_DATA, CO_DATA, NO2_DATA, CH4_DATA] at hai haj
      simp [product_registry_consistent, combine_two, mkParticle, registry_entry, H_ATOM, HE_ATOM, LI_ATOM, BE_ATOM, B_ATOM, C_ATOM, N_ATOM, O_ATOM, F_ATOM, NE_ATOM, NA_ATOM, MG_ATOM, H2_DATA, N2_DATA, O2_DATA, HE2_DATA, LI2_DATA, BE2_DATA, B2_DATA, F2_DATA, CO2_DATA, NO_DATA, HEH_DATA, LIH_DATA, BEO_DATA, BF_DATA, NEF_DATA, H2O_DATA, N2O_DATA, NH3_DATA, CO_DATA, NO2_DATA, CH4_DATA]
      linarith [hai, haj]
    · injection hbr with hd; subst hd
      rw [mass_registry_consistent, h6.1] at hai
      rw [mass_registry_consistent, h6.2] at haj
      simp [registry_entry, H_ATOM, HE_ATOM, LI_ATOM, BE_ATOM, B_ATOM, C_ATOM, N_ATOM, O_ATOM, F_ATOM, NE_ATOM, NA_ATOM, MG_ATOM, H2_DATA, N2_DATA, O2_DATA, HE2_DATA, LI2_DATA, BE2_DATA, B2_DATA, F2_DATA, CO2_DATA, NO_DATA, HEH_DATA, LIH_DATA, BEO_DATA, BF_DATA, NEF_DATA, H2O_DATA, N2O_DATA, NH3_DATA, CO_DATA, NO2_DATA, CH4_DATA] at hai haj
      simp [product_registry_consistent, combine_two, mkParticle, registry_entry, H_ATOM, HE_ATOM, LI_ATOM, BE_ATOM, B_ATOM, C_ATOM, N_ATOM, O_ATOM, F_ATOM, NE_ATOM, NA_ATOM, MG_ATOM, H2_DATA, N2_DATA, O2_DATA, HE2_DATA, LI2_DATA, BE2_DATA, B2_DATA, F2_DATA, CO2_DATA, NO_DATA, HEH_DATA, LIH_DATA, BEO_DATA, BF_DATA, NEF_DATA, H2O_DATA, N2O_DATA, NH3_DATA, CO_DATA, NO2_DATA, CH4_DATA]
      linarith [hai, haj]
    · injection hbr with hd; subst hd
      rw [mass_registry_consistent, h7.1] at hai
      rw [mass_registry_consistent, h7.2] at haj
      simp [registry_entry, H_ATOM, HE_ATOM, LI_ATOM, BE_ATOM, B_ATOM, C_ATOM, N_ATOM, O_ATOM, F_ATOM, NE_ATOM, NA_ATOM, MG_ATOM, H2_DATA, N2_DATA, O2_DATA, HE2_DATA, LI2_DATA, BE2_DATA, B2_DATA, F2_DATA, CO2_DATA, NO_DATA, HEH_DATA, LIH_DATA, BEO_DATA, BF_DATA, NEF_DATA, H2O_DATA, N2O_DATA, NH3_DATA, CO_DATA, NO2_DATA, CH4_DATA] at hai haj
      simp [product_registry_consistent, combine_two, mkParticle, registry_entry, H_ATOM, HE_ATOM, LI_ATOM, BE_ATOM, B_ATOM, C_ATOM, N_ATOM, O_ATOM, F_ATOM, NE_ATOM, NA_ATOM, MG_ATOM, H2_DATA, N2_DATA, O2_DATA, HE2_DATA, LI2_DATA, BE2_DATA, B2_DATA, F2_DATA, CO2_DATA, NO_DATA, HEH_DATA, LIH_DATA, BEO_DATA, BF_DATA, NEF_DATA, H2O_DATA, N2O_DATA, NH3_DATA, CO_DATA, NO2_DATA, CH4_DATA]
      linarith [hai, haj]
    · injection hbr with hd; subst hd
      rw [mass_registry_consistent, h8.1] at hai
      rw [mass_registry_consistent, h8.2] at haj
      simp [registry_entry, H_ATOM, HE_ATOM, LI_ATOM, BE_ATOM, B_ATOM, C_ATOM, N_ATOM, O_ATOM, F_ATOM, NE_ATOM, NA_ATOM, MG_ATOM, H2_DATA, N2_DATA, O2_DATA, HE2_DATA, LI2_DATA, BE2_DATA, B2_DATA, F2_DATA, CO2_DATA, NO_DATA, HEH_DATA, LIH_DATA, BEO_DATA, BF_DATA, NEF_DATA, H2O_DATA, N2O_DATA, NH3_DATA, CO_DATA, NO2_DATA, CH4_DATA] at hai haj
      simp [product_registry_consistent, combine_two, mkParticle, registry_entry, H_ATOM, HE_ATOM, LI_ATOM, BE_ATOM, B_ATOM, C_ATOM, N_ATOM, O_ATOM, F_ATOM, NE_ATOM, NA_ATOM, MG_ATOM, H2_DATA, N2_DATA, O2_DATA, HE2_DATA, LI2_DATA, BE2_DATA, B2_DATA, F2_DATA, CO2_DATA, NO_DATA, HEH_DATA, LIH_DATA, BEO_DATA, BF_DATA, NEF_DATA, H2O_DATA, N2O_DATA, NH3_DATA, CO_DATA, NO2_DATA, CH4_DATA]
      linarith [hai, haj]
    · exact absurd hbr (by simp)
  · intro m hm
    obtain ⟨i, j, hm1, hij, hjlen, hpair, d, hbr, hprod⟩ :=
      pair_scan_spec extra_branch ps pairs m hm
    have hai := hps _ (pget_mem ps i (lt_trans hij hjlen))
    have haj := hps _ (pget_mem ps j hjlen)
    rw [hprod]
    revert hbr
    unfold extra_branch
    split_ifs with h1 h2 h3 h4 h5 h6 h7 h8 <;> intro hbr
    · injection hbr with hd; subst hd
      rcases h1 with ⟨hA, hB⟩ | ⟨hA, hB⟩ <;>
        · rw [mass_registry_consistent, hA] at hai
          rw [mass_registry_consistent, hB] at haj
          simp [registry_entry, H_ATOM, HE_ATOM, LI_ATOM, BE_ATOM, B_ATOM, C_ATOM, N_ATOM, O_ATOM, F_ATOM, NE_ATOM, NA_ATOM, MG_ATOM, H2_DATA, N2_DATA, O2_DATA, HE2_DATA, LI2_DATA, BE2_DATA, B2_DATA, F2_DATA, CO2_DATA, NO_DATA, HEH_DATA, LIH_DATA, BEO_DATA, BF_DATA, NEF_DATA, H2O_DATA, N2O_DATA, NH3_DATA, CO_DATA, NO2_DATA, CH4_DATA] at hai haj
          simp [product_registry_consistent, combine_two, mkParticle, registry_entry, H_ATOM, HE_ATOM, LI_ATOM, BE_ATOM, B_ATOM, C_ATOM, N_ATOM, O_ATOM, F_ATOM, NE_ATOM, NA_ATOM, MG_ATOM, H2_DATA, N2_DATA, O2_DATA, HE2_DATA, LI2_DATA, BE2_DATA, B2_DATA, F2_DATA, CO2_DATA, NO_DATA, HEH_DATA, LIH_DATA, BEO_DATA, BF_DATA, NEF_DATA, H2O_DATA, N2O_DATA, NH3_DATA, CO_DATA, NO2_DATA, CH4_DATA]
          linarith [hai, haj]
    · injection hbr with hd; subst hd
      rcases h2 with ⟨hA, hB⟩ | ⟨hA, hB⟩ <;>
        · rw [mass_registry_consistent, hA] at hai
          rw [mass_registry_consistent, hB] at haj
          simp [registry_entry, H_ATOM, HE_ATOM, LI_ATOM, BE_ATOM, B_ATOM, C_ATOM, N_ATOM, O_ATOM, F_ATOM, NE_ATOM, NA_ATOM, MG_ATOM, H2_DATA, N2_DATA, O2_DATA, HE2_DATA, LI2_DATA, BE2_DATA, B2_DATA, F2_DATA, CO2_DATA, NO_DATA, HEH_DATA, LIH_DATA, BEO_DATA, BF_DATA, NEF_DATA, H2O_DATA, N2O_DATA, NH3_DATA, CO_DATA, NO2_DATA, CH4_DATA] at hai haj
          simp [product_registry_consistent, combine_two, mkParticle, registry_entry, H_ATOM, HE_ATOM, LI_ATOM, BE_ATOM, B_ATOM, C_ATOM, N_ATOM, O_ATOM, F_ATOM, NE_ATOM, NA_ATOM, MG_ATOM, H2_DATA, N2_DATA, O2_DATA, HE2_DATA, LI2_DATA, BE2_DATA, B2_DATA, F2_DATA, CO2_DATA, NO_DATA, HEH_DATA, LIH_DATA, BEO_DATA, BF_DATA, NEF_DATA, H2O_DATA, N2O_DATA, NH3_DATA, CO_DATA, NO2_DATA, CH4_DATA]
          linarith [hai, haj]
    · injection hbr with hd; subst hd
      rcases h3 with ⟨hA, hB⟩ | ⟨hA, hB⟩ <;>
        · rw [mass_registry_consistent, hA] at hai
          rw [mass_registry_consistent, hB] at haj
          simp [registry_entry, H_ATOM, HE_ATOM, LI_ATOM, BE_ATOM, B_ATOM, C_ATOM, N_ATOM, O_ATOM, F_ATOM, NE_ATOM, NA_ATOM, MG_ATOM, H2_DATA, N2_DATA, O2_DATA, HE2_DATA, LI2_DATA, BE2_DATA, B2_DATA, F2_DATA, CO2_DATA, NO_DATA, HEH_DATA, LIH_DATA, BEO_DATA, BF_DATA, NEF_DATA, H2O_DATA, N2O_DATA, NH3_DATA, CO_DATA, NO2_DATA, CH4_DATA] at hai haj
          simp [product_registry_consistent, combine_two, mkParticle, registry_entry, H_ATOM, HE_ATOM, LI_ATOM, BE_ATOM, B_ATOM, C_ATOM, N_ATOM, O_ATOM, F_ATOM, NE_ATOM, NA_ATOM, MG_ATOM, H2_DATA, N2_DATA, O2_DATA, HE2_DATA, LI2_DATA, BE2_DATA, B2_DATA, F2_DATA, CO2_DATA, NO_DATA, HEH_DATA, LIH_DATA, BEO_DATA, BF_DATA, NEF_DATA, H2O_DATA, N2O_DATA, NH3_DATA, CO_DATA, NO2_DATA, CH4_DATA]
          linarith [hai, haj]
    · injection hbr with hd; subst hd
      rcases h4 with ⟨hA, hB⟩ | ⟨hA, hB⟩ <;>
        · rw [mass_registry_consistent, hA] at hai
          rw [mass_registry_consistent, hB] at haj
          simp [registry_entry, H_ATOM, HE_ATOM, LI_ATOM, BE_ATOM, B_ATOM, C_ATOM, N_ATOM, O_ATOM, F_ATOM, NE_ATOM, NA_ATOM, MG_ATOM, H2_DATA, N2_DATA, O2_DATA, HE2_DATA, LI2_DATA, BE2_DATA, B2_DATA, F2_DATA, CO2_DATA, NO_DATA, HEH_DATA, LIH_DATA, BEO_DATA, BF_DATA, NEF_DATA, H2O_DATA, N2O_DATA, NH3_DATA, CO_DATA, NO2_DATA, CH4_DATA] at hai haj
          simp [product_registry_consistent, combine_two, mkParticle, registry_entry, H_ATOM, HE_ATOM, LI_ATOM, BE_ATOM, B_ATOM, C_ATOM, N_ATOM, O_ATOM, F_ATOM, NE_ATOM, NA_ATOM, MG_ATOM, H2_DATA, N2_DATA, O2_DATA, HE2_DATA, LI2_DATA, BE2_DATA, B2_DATA, F2_DATA, CO2_DATA, NO_DATA, HEH_DATA, LIH_DATA, BEO_DATA, BF_DATA, NEF_DATA, H2O_DATA, N2O_DATA, NH3_DATA, CO_DATA, NO2_DATA, CH4_DATA]
          linarith [hai, haj]
    · injection hbr with hd; subst hd
      rcases h5 with ⟨hA, hB⟩ | ⟨hA, hB⟩ <;>
        · rw [mass_registry_consistent, hA] at hai
          rw [mass_registry_consistent, hB] at haj
          simp [registry_entry, H_ATOM, HE_ATOM, LI_ATOM, BE_ATOM, B_ATOM, C_ATOM, N_ATOM, O_ATOM, F_ATOM, NE_ATOM, NA_ATOM, MG_ATOM, H2_DATA, N2_DATA, O2_DATA, HE2_DATA, LI2_DATA, BE2_DATA, B2_DATA, F2_DATA, CO2_DATA, NO_DATA, HEH_DATA, LIH_DATA, BEO_DATA, BF_DATA, NEF_DATA, H2O_DATA, N2O_DATA, NH3_DATA, CO_DATA, NO2_DATA, CH4_DATA] at hai haj
          simp [product_registry_consistent, combine_two, mkParticle, registry_entry, H_ATOM, HE_ATOM, LI_ATOM, BE_ATOM, B_ATOM, C_ATOM, N_ATOM, O_ATOM, F_ATOM, NE_ATOM, NA_ATOM, MG_ATOM, H2_DATA, N2_DATA, O2_DATA, HE2_DATA, LI2_DATA, BE2_DATA, B2_DATA, F2_DATA, CO2_DATA, NO_DATA, HEH_DATA, LIH_DATA, BEO_DATA, BF_DATA, NEF_DATA, H2O_DATA, N2O_DATA, NH3_DATA, CO_DATA, NO2_DATA, CH4_DATA]
          linarith [hai, haj]
    · injection hbr with hd; subst hd
      rcases h6 with ⟨hA, hB⟩ | ⟨hA, hB⟩ <;>
        · rw [mass_registry_consistent, hA] at hai
          rw [mass_registry_consistent, hB] at haj
          simp [registry_entry, H_ATOM, HE_ATOM, LI_ATOM, BE_ATOM, B_ATOM, C_ATOM, N_ATOM, O_ATOM, F_ATOM, NE_ATOM, NA_ATOM, MG_ATOM, H2_DATA, N2_DATA, O2_DATA, HE2_DATA, LI2_DATA, BE2_DATA, B2_DATA, F2_DATA, CO2_DATA, NO_DATA, HEH_DATA, LIH_DATA, BEO_DATA, BF_DATA, NEF_DATA, H2O_DATA, N2O_DATA, NH3_DATA, CO_DATA, NO2_DATA, CH4_DATA] at hai haj
          simp [product_registry_consistent, combine_two, mkParticle, registry_entry, H_ATOM, HE_ATOM, LI_ATOM, BE_ATOM, B_ATOM, C_ATOM, N_ATOM, O_ATOM, F_ATOM, NE_ATOM, NA_ATOM, MG_ATOM, H2_DATA, N2_DATA, O2_DATA, HE2_DATA, LI2_DATA, BE2_DATA, B2_DATA, F2_DATA, CO2_DATA, NO_DATA, HEH_DATA, LIH_DATA, BEO_DATA, BF_DATA, NEF_DATA, H2O_DATA, N2O_DATA, NH3_DATA, CO_DATA, NO2_DATA, CH4_DATA]
          linarith [hai, haj]
    · injection hbr with hd; subst hd
      rcases h7 with ⟨hA, hB⟩ | ⟨hA, hB⟩ <;>
        · rw [mass_registry_consistent, hA] at hai
          rw [mass_registry_consistent, hB] at haj
          simp [registry_entry, H_ATOM, HE_ATOM, LI_ATOM, BE_ATOM, B_ATOM, C_ATOM, N_ATOM, O_ATOM, F_ATOM, NE_ATOM, NA_ATOM, MG_ATOM, H2_DATA, N2_DATA, O2_DATA, HE2_DATA, LI2_DATA, BE2_DATA, B2_DATA, F2_DATA, CO2_DATA, NO_DATA, HEH_DATA, LIH_DATA, BEO_DATA, BF_DATA, NEF_DATA, H2O_DATA, N2O_DATA, NH3_DATA, CO_DATA, NO2_DATA, CH4_DATA] at hai haj
          simp [product_registry_consistent, combine_two, mkParticle, registry_entry, H_ATOM, HE_ATOM, LI_ATOM, BE_ATOM, B_ATOM, C_ATOM, N_ATOM, O_ATOM, F_ATOM, NE_ATOM, NA_ATOM, MG_ATOM, H2_DATA, N2_DATA, O2_DATA, HE2_DATA, LI2_DATA, BE2_DATA, B2_DATA, F2_DATA, CO2_DATA, NO_DATA, HEH_DATA, LIH_DATA, BEO_DATA, BF_DATA, NEF_DATA, H2O_DATA, N2O_DATA, NH3_DATA, CO_DATA, NO2_DATA, CH4_DATA]
          linarith [hai, haj]
    · injection hbr with hd; subst hd
      rcases h8 with ⟨hA, hB⟩ | ⟨hA, hB⟩ <;>
        · rw [mass_registry_consistent, hA] at hai
          rw [mass_registry_consistent, hB] at haj
          simp [registry_entry, H_ATOM, HE_ATOM, LI_ATOM, BE_ATOM, B_ATOM, C_ATOM, N_ATOM, O_ATOM, F_ATOM, NE_ATOM, NA_ATOM, MG_ATOM, H2_DATA, N2_DATA, O2_DATA, HE2_DATA, LI2_DATA, BE2_DATA, B2_DATA, F2_DATA, CO2_DATA, NO_DATA, HEH_DATA, LIH_DATA, BEO_DATA, BF_DATA, NEF_DATA, H2O_DATA, N2O_DATA, NH3_DATA, CO_DATA, NO2_DATA, CH4_DATA] at hai haj
          simp [product_registry_consistent, combine_two, mkParticle, registry_entry, H_ATOM, HE_ATOM, LI_ATOM, BE_ATOM, B_ATOM, C_ATOM, N_ATOM, O_ATOM, F_ATOM, NE_ATOM, NA_ATOM, MG_ATOM, H2_DATA, N2_DATA, O2_DATA, HE2_DATA, LI2_DATA, BE2_DATA, B2_DATA, F2_DATA, CO2_DATA, NO_DATA, HEH_DATA, LIH_DATA, BEO_DATA, BF_DATA, NEF_DATA, H2O_DATA, N2O_DATA, NH3_DATA, CO_DATA, NO2_DATA, CH4_DATA]
          linarith [hai, haj]
    · exact absurd hbr (by simp)
  · intro m hm
    obtain ⟨i, j, k, hm1, hij, hjk, hklen, hpij, hpik, hpjk, d, hbr, hprod⟩ :=
      triple_scan_spec ps pairs m hm
    have hai := hps _ (pget_mem ps i (lt_trans hij (lt_trans hjk hklen)))
    have haj := hps _ (pget_mem ps j (lt_trans hjk hklen))
    have hak := hps _ (pget_mem ps k hklen)
    rw [hprod]
    revert hbr
    simp only [triple_branch]
    split_ifs with h1 h2 <;> intro hbr
    · injection hbr with hd; subst hd
      rcases count_two_one _ _ _ _ _ (by simp) h1.1 h1.2 with
        ⟨e1, e2, e3⟩ | ⟨e1, e2, e3⟩ | ⟨e1, e2, e3⟩ <;>
        · rw [mass_registry_consistent, e1] at hai
          rw [mass_registry_consistent, e2] at haj
          rw [mass_registry_consistent, e3] at hak
          simp [registry_entry, H_ATOM, HE_ATOM, LI_ATOM, BE_ATOM, B_ATOM, C_ATOM, N_ATOM, O_ATOM, F_ATOM, NE_ATOM, NA_ATOM, MG_ATOM, H2_DATA, N2_DATA, O2_DATA, HE2_DATA, LI2_DATA, BE2_DATA, B2_DATA, F2_DATA, CO2_DATA, NO_DATA, HEH_DATA, LIH_DATA, BEO_DATA, BF_DATA, NEF_DATA, H2O_DATA, N2O_DATA, NH3_DATA, CO_DATA, NO2_DATA, CH4_DATA] at hai haj hak
          intro q hq
          simp [spawn_two_molecules_3, mkParticle] at hq
          rcases hq with rfl | rfl <;>
            · simp [product_registry_consistent, registry_entry, H_ATOM, HE_ATOM, LI_ATOM, BE_ATOM, B_ATOM, C_ATOM, N_ATOM, O_ATOM, F_ATOM, NE_ATOM, NA_ATOM, MG_ATOM, H2_DATA, N2_DATA, O2_DATA, HE2_DATA, LI2_DATA, BE2_DATA, B2_DATA, F2_DATA, CO2_DATA, NO_DATA, HEH_DATA, LIH_DATA, BEO_DATA, BF_DATA, NEF_DATA, H2O_DATA, N2O_DATA, NH3_DATA, CO_DATA, NO2_DATA, CH4_DATA]
              linarith [hai, haj, hak]
    · injection hbr with hd; subst hd
      rcases count_two_one _ _ _ _ _ (by simp) h2.1 h2.2 with
        ⟨e1, e2, e3⟩ | ⟨e1, e2, e3⟩ | ⟨e1, e2, e3⟩ <;>
        · rw [mass_registry_consistent, e1] at hai
          rw [mass_registry_consistent, e2] at haj
          rw [mass_registry_consistent, e3] at hak
          simp [registry_entry, H_ATOM, HE_ATOM, LI_ATOM, BE_ATOM, B_ATOM, C_ATOM, N_ATOM, O_ATOM, F_ATOM, NE_ATOM, NA_ATOM, MG_ATOM, H2_DATA, N2_DATA, O2_DATA, HE2_DATA, LI2_DATA, BE2_DATA, B2_DATA, F2_DATA, CO2_DATA, NO_DATA, HEH_DATA, LIH_DATA, BEO_DATA, BF_DATA, NEF_DATA, H2O_DATA, N2O_DATA, NH3_DATA, CO_DATA, NO2_DATA, CH4_DATA] at hai haj hak
          intro q hq
          simp [spawn_two_molecules_3, mkParticle] at hq
          rcases hq with rfl | rfl <;>
            · simp [product_registry_consistent, registry_entry, H_ATOM, HE_ATOM, LI_ATOM, BE_ATOM, B_ATOM, C_ATOM, N_ATOM, O_ATOM, F_ATOM, NE_ATOM, NA_ATOM, MG_ATOM, H2_DATA, N2_DATA, O2_DATA, HE2_DATA, LI2_DATA, BE2_DATA, B2_DATA, F2_DATA, CO2_DATA, NO_DATA, HEH_DATA, LIH_DATA, BEO_DATA, BF_DATA, NEF_DATA, H2O_DATA, N2O_DATA, NH3_DATA, CO_DATA, NO2_DATA, CH4_DATA]
              linarith [hai, haj, hak]
    · exact absurd hbr (by simp)
  · intro m hm
    obtain ⟨i, j, k, l, hm1, hij, hjk, hkl, hllen, hpij, hpik, hpjk, hpil, hpjl, hpkl,
      d, hbr, hprod⟩ := quad_scan_spec ps pairs m hm
    have hai := hps _ (pget_mem ps i (lt_trans hij (lt_trans hjk (lt_trans hkl hllen))))
    have haj := hps _ (pget_mem ps j (lt_trans hjk (lt_trans hkl hllen)))
    have hak := hps _ (pget_mem ps k (lt_trans hkl hllen))
    have hal := hps _ (pget_mem ps l hllen)
    rw [hprod]
    revert hbr
    simp only [quad_branch]
    split_ifs with h1 <;> intro hbr
    · injection hbr with hd; subst hd
      rcases count_one_three _ _ _ _ _ _ (by simp) h1.1 h1.2 with
        ⟨e1, e2, e3, e4⟩ | ⟨e1, e2, e3, e4⟩ | ⟨e1, e2, e3, e4⟩ | ⟨e1, e2, e3, e4⟩ <;>
        · rw [mass_registry_consistent, e1] at hai
          rw [mass_registry_consistent, e2] at haj
          rw [mass_registry_consistent, e3] at hak
          rw [mass_registry_consistent, e4] at hal
          simp [registry_entry, H_ATOM, HE_ATOM, LI_ATOM, BE_ATOM, B_ATOM, C_ATOM, N_ATOM, O_ATOM, F_ATOM, NE_ATOM, NA_ATOM, MG_ATOM, H2_DATA, N2_DATA, O2_DATA, HE2_DATA, LI2_DATA, BE2_DATA, B2_DATA, F2_DATA, CO2_DATA, NO_DATA, HEH_DATA, LIH_DATA, BEO_DATA, BF_DATA, NEF_DATA, H2O_DATA, N2O_DATA, NH3_DATA, CO_DATA, NO2_DATA, CH4_DATA] at hai haj hak hal
          intro q hq
          simp [spawn_two_molecules_4, mkParticle] at hq
          rcases hq with rfl | rfl <;>
            · simp [product_registry_consistent, registry_entry, H_ATOM, HE_ATOM, LI_ATOM, BE_ATOM, B_ATOM, C_ATOM, N_ATOM, O_ATOM, F_ATOM, NE_ATOM, NA_ATOM, MG_ATOM, H2_DATA, N2_DATA, O2_DATA, HE2_DATA, LI2_DATA, BE2_DATA, B2_DATA, F2_DATA, CO2_DATA, NO_DATA, HEH_DATA, LIH_DATA, BEO_DATA, BF_DATA, NEF_DATA, H2O_DATA, N2O_DATA, NH3_DATA, CO_DATA, NO2_DATA, CH4_DATA]
              linarith [hai, haj, hak, hal]
    · exact absurd hbr (by simp)

/-- Two registry-consistent H atoms for the C7 witness. -/
def c7ps : List Particle :=
  [{ x := 0, y := 0, vx := 0, vy := 0, mass := 1, symbol := "H", color := (255, 0, 0), radius := 6 },
   { x := 5, y := 0, vx := 0, vy := 0, mass := 1, symbol := "H", color := (255, 0, 0), radius := 6 }]

theorem claim_C7_registry_consistency_witness :
    (∀ p ∈ c7ps, mass_registry_consistent p) ∧
    product_registry_consistent (combine_two (pget c7ps 0) (pget c7ps 1) H2_DATA) :=
  ⟨by simp [c7ps, mass_registry_consistent, registry_entry, H_ATOM],
   (claim_C7_registry_consistency c7ps [(0, 1)]
      (by simp [c7ps, mass_registry_consistent, registry_entry, H_ATOM])).1
     ((0, 1), combine_two (pget c7ps 0) (pget c7ps 1) H2_DATA)
     (by simp [pair_scan, pair_inner, diatomic_branch, pget, c7ps,
       List.range_succ, List.range'])⟩
